import Mathlib

/-!
Shallow embedding of the HWID-Checker identity snapshot and drift-detection
engine (src/src/app.rs and src/src/info/*.rs), together with proofs about the
properties the specification claims for it.

Modelling conventions:
 - Rust `String`/`&str` values are Lean `String` (a wrapper around `List Char`);
   all string manipulation is done through explicit `List Char` helpers so that
   every operation is executable and kernel-reducible.
 - Rust `str::trim` trims Unicode whitespace; the model trims the characters
   accepted by `Char.isWhitespace` (space, tab, CR, LF), which agrees with Rust
   on every string appearing in this code base.
 - Rust `str::to_lowercase` is modelled by per-character `Char.toLower`, which
   agrees with Rust on ASCII data (all placeholder literals are ASCII).
 - Rust `content.lines()` splits on `'\n'` and strips a trailing `'\r'` from
   each line; the model splits on `'\n'` without stripping `'\r'`.  Every
   consumer of a line in this program first trims the line, which removes a
   trailing `'\r'`, so the two readings of the code agree.  Splitting also
   yields a final empty line when the text ends in `'\n'`; an empty line is
   skipped by the parser, so this is also behaviour-preserving.
 - External inputs (WMI query results, registry values) are modelled as
   explicit parameters: a `Vec<T>` query result is a `List`, a fallible
   registry read is an `Option`.  The non-Windows and connection-failure
   branches of each `collect` return the `Default` value and are modelled by
   the explicit `default` definitions.
-/

/-! ## String helpers (models of the Rust standard-library operations used) -/

/-- Model of Rust `str::trim` on the left: drop leading whitespace. -/
def ltrimChars (l : List Char) : List Char := l.dropWhile Char.isWhitespace

/-- Model of Rust `str::trim` on the right: drop trailing whitespace. -/
def rtrimChars (l : List Char) : List Char :=
  (l.reverse.dropWhile Char.isWhitespace).reverse

/-- Model of Rust `str::trim` on a character list. -/
def trimChars (l : List Char) : List Char := rtrimChars (ltrimChars l)

/-- Model of Rust `str::trim`. -/
def strTrim (s : String) : String := String.mk (trimChars s.data)

/-- Model of Rust `str::to_lowercase` (ASCII-faithful). -/
def lowerStr (s : String) : String := String.mk (s.data.map Char.toLower)

/-- Helper for Rust `str::contains(pattern)`: is `pat` a contiguous infix of `l`? -/
def infixOfChars (pat : List Char) : List Char → Bool
  | [] => pat.isEmpty
  | c :: rest => pat.isPrefixOf (c :: rest) || infixOfChars pat rest

/-- Model of Rust `str::contains` with a string pattern. -/
def strContains (s pat : String) : Bool := infixOfChars pat.data s.data

/-- Split a character list at every occurrence of `sep` (model of the
splitting underlying Rust `str::lines` for `sep = '\n'`). -/
def splitOnChar (sep : Char) : List Char → List (List Char)
  | [] => [[]]
  | c :: rest =>
    if c == sep then [] :: splitOnChar sep rest
    else
      match splitOnChar sep rest with
      | [] => [c] :: []
      | grp :: grps => (c :: grp) :: grps

/-- Model of Rust `content.lines()` (see the module comment for the two
behaviour-preserving deltas: no `'\r'` stripping, possible final empty line). -/
def splitLines (s : String) : List String := (splitOnChar '\n' s.data).map String.mk

/-- Model of Rust `str::split_once(sep)`: split at the first occurrence of the
separator character, returning the text before and after it; `none` when the
separator does not occur. -/
def splitOnceChar (sep : Char) : List Char → Option (List Char × List Char)
  | [] => none
  | c :: rest =>
    if c == sep then some ([], rest)
    else
      match splitOnceChar sep rest with
      | none => none
      | some (before, after) => some (c :: before, after)

/-- Model of Rust `str::trim_matches('=')`: drop all leading and trailing `'='`. -/
def trimMatchesEq (s : String) : String :=
  String.mk (((s.data.dropWhile (fun c => c == '=')).reverse.dropWhile
    (fun c => c == '=')).reverse)

/-- Model of Rust `str::starts_with("===") && str::ends_with("===")`, the
section-header test of `PreviousSerials::parse` (src/src/info/advanced.rs:176). -/
def isHeaderLine (s : String) : Bool :=
  "===".data.isPrefixOf s.data && "===".data.isSuffixOf s.data

/-! ## Data model (src/src/info/advanced.rs) -/

/-- Serial comparison result (src/src/info/advanced.rs:20). -/
inductive SerialStatus where
  | Unchanged : SerialStatus
  | Changed : String → SerialStatus
  | New : SerialStatus
deriving DecidableEq

/-- Parsed previous serials from the export file (src/src/info/advanced.rs:28). -/
structure PreviousSerials where
  system_serial : Option String
  system_uuid : Option String
  system_sku : Option String
  baseboard_serial : Option String
  processor_serial : Option String
  chassis_serial : Option String
  disk_serials : List String
  network_macs : List String
  monitor_serials : List String
  gpu_guids : List String
deriving DecidableEq

/-- `#[derive(Default)]` for `PreviousSerials`. -/
def PreviousSerials.default : PreviousSerials :=
  { system_serial := none, system_uuid := none, system_sku := none
    baseboard_serial := none, processor_serial := none, chassis_serial := none
    disk_serials := [], network_macs := [], monitor_serials := [], gpu_guids := [] }

/-- Lock status of the motherboard/BIOS (src/src/info/advanced.rs:8). -/
structure LockedMotherboardInfo where
  is_oem_system : Bool
  oem_vendor : String
  bios_write_protected : Bool
  secure_boot_enforced : Bool
  tpm_locked : Bool
  overall_locked : Bool
  lock_reasons : List String
deriving DecidableEq

/-- `impl Default for LockedMotherboardInfo` (src/src/info/advanced.rs:152). -/
def LockedMotherboardInfo.default : LockedMotherboardInfo :=
  { is_oem_system := false, oem_vendor := "Unknown", bios_write_protected := false
    secure_boot_enforced := false, tpm_locked := false, overall_locked := false
    lock_reasons := [] }

/-- Spoofing advice entry (src/src/info/advanced.rs:43). -/
structure SpoofingAdvice where
  category : String
  method : String
  difficulty : String
  details : String
deriving DecidableEq

/-! ## PreviousSerials::parse (src/src/info/advanced.rs:168-237) -/

/-- Key/value dispatch of `PreviousSerials::parse` (the `match current_section`
block at src/src/info/advanced.rs:190-232).  `Vec::push` appends at the end. -/
def parseDispatch (sec key value : String) (s : PreviousSerials) : PreviousSerials :=
  match sec with
  | "SYSTEM" =>
    match key with
    | "Serial Number" => { s with system_serial := some value }
    | "UUID" => { s with system_uuid := some value }
    | "SKU" => { s with system_sku := some value }
    | _ => s
  | "BASEBOARD" =>
    if key = "Serial Number" then { s with baseboard_serial := some value } else s
  | "PROCESSOR" =>
    if key = "Serial Number" then { s with processor_serial := some value } else s
  | "CHASSIS" =>
    if key = "Serial Number" then { s with chassis_serial := some value } else s
  | "DISKS" =>
    if strContains key "Serial" then { s with disk_serials := s.disk_serials ++ [value] } else s
  | "NETWORK" => { s with network_macs := s.network_macs ++ [value] }
  | "MONITORS" =>
    if key = "Serial Number" then { s with monitor_serials := s.monitor_serials ++ [value] } else s
  | "GPU" =>
    if strContains key "GUID" then { s with gpu_guids := s.gpu_guids ++ [value] } else s
  | _ => s

/-- One iteration of the `for line in content.lines()` loop of
`PreviousSerials::parse` (src/src/info/advanced.rs:172-234).  The state is the
pair (`current_section`, accumulated serials). -/
def parseLine (st : String × PreviousSerials) (rawLine : String) : String × PreviousSerials :=
  let (sec, ser) := st
  let line := strTrim rawLine
  if isHeaderLine line then (strTrim (trimMatchesEq line), ser)
  else
    match splitOnceChar ':' line.data with
    | none => (sec, ser)
    | some (k, v) =>
      let key := strTrim (String.mk k)
      let value := strTrim (String.mk v)
      if value = "" ∨ value = "N/A" then (sec, ser)
      else (sec, parseDispatch sec key value ser)

/-- `PreviousSerials::parse` (src/src/info/advanced.rs:168-237). -/
def PreviousSerials.parse (content : String) : PreviousSerials :=
  ((splitLines content).foldl parseLine ("", PreviousSerials.default)).2

/-! ## PreviousSerials::compare and compare_list (src/src/info/advanced.rs:240-285) -/

/-- `PreviousSerials::compare` (src/src/info/advanced.rs:240-260).  The Rust
match arms `Some(old) if old == current => Unchanged / Some(old) => Changed`
are rendered as a conditional inside the `some` branch. -/
def PreviousSerials.compare (b : PreviousSerials) (category current : String) : SerialStatus :=
  if current = "" ∨ current = "N/A" then SerialStatus.New
  else
    let previous : Option String :=
      match category with
      | "system_serial" => b.system_serial
      | "system_uuid" => b.system_uuid
      | "system_sku" => b.system_sku
      | "baseboard_serial" => b.baseboard_serial
      | "processor_serial" => b.processor_serial
      | "chassis_serial" => b.chassis_serial
      | _ => none
    match previous with
    | some old => if old = current then SerialStatus.Unchanged else SerialStatus.Changed old
    | none => SerialStatus.New

/-- `PreviousSerials::compare_list` (src/src/info/advanced.rs:263-285).  The
early `_ => return SerialStatus::New` for an unrecognized category is modelled
by the `none` case of the inner category lookup. -/
def PreviousSerials.compare_list (b : PreviousSerials) (category current : String) : SerialStatus :=
  if current = "" ∨ current = "N/A" then SerialStatus.New
  else
    match (match category with
           | "disk" => some b.disk_serials
           | "network" => some b.network_macs
           | "monitor" => some b.monitor_serials
           | "gpu" => some b.gpu_guids
           | _ => none) with
    | none => SerialStatus.New
    | some list =>
      if list.isEmpty then SerialStatus.New
      else if list.any (fun s => s == current) then SerialStatus.Unchanged
      else SerialStatus.Changed "(different from previous)"

/-! ## LockedMotherboardInfo::detect_windows (src/src/info/advanced.rs:62-149) -/

/-- The registry reads performed by `detect_windows`, as external inputs.
`none` models any failing `open_subkey`/`get_value` chain. -/
structure RegistryView where
  systemManufacturer : Option String
  uefiSecureBootEnabled : Option Nat
  tpmStart : Option Nat
  vbsEnabled : Option Nat
  hvciEnabled : Option Nat
deriving DecidableEq

/-- Known OEM vendor table (src/src/info/advanced.rs:76-86). -/
def oemVendors : List (String × String) :=
  [("dell", "Dell"), ("hp", "HP"), ("hewlett", "HP"), ("lenovo", "Lenovo"),
   ("asus", "ASUS"), ("acer", "Acer"), ("msi", "MSI"), ("gigabyte", "Gigabyte"),
   ("asrock", "ASRock")]

/-- The OEM-vendor scan of `detect_windows` (src/src/info/advanced.rs:71-101):
first matching pattern wins (`break`), and only Dell/HP/Lenovo patterns set
`is_oem_system` and push a lock reason.  Returns
(`is_oem_system`, `oem_vendor`, pushed reasons). -/
def oemScan (manufacturer : Option String) : Bool × String × List String :=
  match manufacturer with
  | none => (false, "Unknown", [])
  | some m =>
    let ml := lowerStr m
    match oemVendors.find? (fun p => strContains ml p.1) with
    | none => (false, "Unknown", [])
    | some (pat, vendor) =>
      if ["dell", "hp", "hewlett", "lenovo"].contains pat then
        (true, vendor, [vendor ++ " OEM system detected - BIOS typically locked"])
      else (false, vendor, [])

/-- `LockedMotherboardInfo::detect_windows` (src/src/info/advanced.rs:62-149),
with the registry as an explicit input. -/
def LockedMotherboardInfo.detectWindows (reg : RegistryView) : LockedMotherboardInfo :=
  let (isOem, vendor, reasons0) := oemScan reg.systemManufacturer
  let sb : Bool := match reg.uefiSecureBootEnabled with
    | some v => v == 1
    | none => false
  let reasons1 := reasons0 ++
    (if sb then ["Secure Boot enabled - EFI modifications restricted"] else [])
  let tpm : Bool := match reg.tpmStart with
    | some start => !(start == 4)
    | none => false
  let reasons2 := reasons1 ++
    (if tpm then ["TPM active - Hardware attestation may detect changes"] else [])
  let vbs : Bool := match reg.vbsEnabled with
    | some v => v == 1
    | none => false
  let reasons3 := reasons2 ++
    (if vbs then ["VBS enabled - Kernel-level protections active"] else [])
  let hvci : Bool := match reg.hvciEnabled with
    | some v => v == 1
    | none => false
  let reasons4 := reasons3 ++
    (if hvci && !(reasons3.any (fun r => strContains r "HVCI")) then
      ["HVCI enabled - Driver signing enforced"] else [])
  { is_oem_system := isOem
    oem_vendor := vendor
    bios_write_protected := vbs || hvci
    secure_boot_enforced := sb
    tpm_locked := tpm
    overall_locked := isOem || sb || (vbs || hvci)
    lock_reasons := reasons4 }

/-! ## generate_spoofing_advice (src/src/info/advanced.rs:289-376)

The Rust string literals use `\`-line-continuations, which splice the pieces
together without the newline and without the following indentation; the
`details` fields below are those spliced single-line strings. -/

/-- `generate_spoofing_advice` (src/src/info/advanced.rs:289-376). -/
def generate_spoofing_advice (locked_info : LockedMotherboardInfo) : List SpoofingAdvice :=
  (if locked_info.overall_locked then
    [{ category := "SMBIOS/Motherboard", method := "EFI-Level Spoofing",
       difficulty := "Advanced",
       details := "Use UEFI shell or EFI module injection. Tools: SmmBackdoor, custom EFI drivers. Modify SMBIOS tables at firmware level before OS boot. May require disabling Secure Boot first." }]
    ++ (if locked_info.secure_boot_enforced then
      [{ category := "Secure Boot", method := "Disable in BIOS", difficulty := "Easy",
         details := "Enter BIOS setup (DEL/F2), navigate to Security/Boot settings, disable Secure Boot. Required before EFI modifications. Some OEM systems may require BIOS password." }]
      else [])
    ++ (if locked_info.tpm_locked then
      [{ category := "TPM", method := "TPM Clear/Reset", difficulty := "Medium",
         details := "Clear TPM from BIOS or Windows Security settings. Note: This will remove all TPM-protected keys including BitLocker. Back up recovery keys first. Some games use TPM for hardware attestation." }]
      else [])
  else
    [{ category := "SMBIOS/Motherboard", method := "Registry + Driver Spoofing",
       difficulty := "Medium",
       details := "Modify HKLM\\HARDWARE\\DESCRIPTION\\System\\BIOS values. Use WMI provider hooks or kernel drivers to intercept queries. Tools: Custom kernel drivers, WMI hooks." }])
  ++ [{ category := "Disk Serials", method := "IOCTL Hooking / Firmware",
        difficulty := "Advanced",
        details := "Hook IOCTL_STORAGE_QUERY_PROPERTY and SMART_RCV_DRIVE_DATA in kernel driver. For persistent changes: some SSDs have firmware tools to modify serial. NVMe drives may use vendor-specific commands." },
      { category := "Network MAC", method := "Registry / Driver Level",
        difficulty := "Easy",
        details := "Registry: HKLM\\SYSTEM\\CurrentControlSet\\Control\\Class\\\x7b4d36e972...\x7d\\000X Add NetworkAddress string with new MAC (no colons). Or use Device Manager > Network Adapter > Advanced > Locally Administered Address." },
      { category := "GPU GUID", method := "Registry Modification",
        difficulty := "Medium",
        details := "Modify HKLM\\SYSTEM\\CurrentControlSet\\Enum\\PCI entries for GPU. Some anti-cheats read GPU info via DXGI/DirectX - may need API hooks. NVIDIA/AMD driver reinstall generates new GUIDs." },
      { category := "Monitor Serial", method := "EDID Spoofing",
        difficulty := "Advanced",
        details := "Intercept EDID data from monitor. Tools: Custom display drivers, EDID override in registry. Path: HKLM\\SYSTEM\\CurrentControlSet\\Enum\\DISPLAY\\<Monitor>\\<ID>\\Device Parameters\\EDID_OVERRIDE" }]

/-! ## Collectors: SystemInfo (src/src/info/system.rs) -/

/-- `is_placeholder` of src/src/info/system.rs:143-154. -/
def systemIsPlaceholder (s : String) : Bool :=
  let lower := lowerStr (strTrim s)
  lower == "" || strContains lower "to be filled" || strContains lower "o.e.m"
    || lower == "default string" || lower == "not specified" || lower == "none"
    || lower == "unknown" || lower == "system serial number"
    || lower == "system product name"

/-- WMI row `Win32_ComputerSystemProduct` (src/src/info/system.rs:21-36). -/
structure Win32ComputerSystemProduct where
  vendor : Option String
  name : Option String
  version : Option String
  identifying_number : Option String
  uuid : Option String
  sku_number : Option String
deriving DecidableEq

/-- WMI row `Win32_ComputerSystem` (src/src/info/system.rs:41-50). -/
structure Win32ComputerSystem where
  manufacturer : Option String
  model : Option String
  system_family : Option String
  system_sku_number : Option String
deriving DecidableEq

/-- `SystemInfo` (src/src/info/system.rs:8-16). -/
structure SystemInfo where
  manufacturer : String
  product_name : String
  version : String
  serial_number : String
  uuid : String
  family : String
  sku : String
deriving DecidableEq

/-- `impl Default for SystemInfo` (src/src/info/system.rs:128-140). -/
def SystemInfo.default : SystemInfo :=
  { manufacturer := "N/A", product_name := "N/A", version := "N/A"
    serial_number := "N/A", uuid := "N/A", family := "N/A", sku := "N/A" }

/-- `SystemInfo::collect_windows` (src/src/info/system.rs:64-125), with the two
WMI query results as explicit inputs (a failing COM/WMI connection returns
`SystemInfo.default` before these queries run). -/
def SystemInfo.collectWindows (products : List Win32ComputerSystemProduct)
    (systems : List Win32ComputerSystem) : SystemInfo :=
  let product := products.head?
  let system := systems.head?
  { manufacturer := (((system.bind (fun s => s.manufacturer)).orElse
        (fun _ => product.bind (fun p => p.vendor))).filter
        (fun s => !systemIsPlaceholder s)).getD "N/A"
    product_name := (((system.bind (fun s => s.model)).orElse
        (fun _ => product.bind (fun p => p.name))).filter
        (fun s => !systemIsPlaceholder s)).getD "N/A"
    version := ((product.bind (fun p => p.version)).filter
        (fun s => !systemIsPlaceholder s)).getD "N/A"
    serial_number := ((product.bind (fun p => p.identifying_number)).filter
        (fun s => !systemIsPlaceholder s)).getD "N/A"
    uuid := ((product.bind (fun p => p.uuid)).filter
        (fun s => !systemIsPlaceholder s)).getD "N/A"
    family := ((system.bind (fun s => s.system_family)).filter
        (fun s => !systemIsPlaceholder s)).getD "N/A"
    sku := (((system.bind (fun s => s.system_sku_number)).orElse
        (fun _ => product.bind (fun p => p.sku_number))).filter
        (fun s => !systemIsPlaceholder s)).getD "N/A" }

/-! ## Collectors: BaseboardInfo (src/src/info/baseboard.rs) -/

/-- `is_placeholder` of src/src/info/baseboard.rs:105-120 (note: this variant
additionally treats a bare "oem" substring, "n/a", "base board serial number"
and "chassis serial number" as placeholders). -/
def baseboardIsPlaceholder (s : String) : Bool :=
  let lower := lowerStr (strTrim s)
  lower == "" || strContains lower "to be filled" || strContains lower "o.e.m"
    || strContains lower "oem" || lower == "default string"
    || lower == "not specified" || lower == "none" || lower == "n/a"
    || lower == "unknown" || lower == "system serial number"
    || lower == "system product name" || lower == "base board serial number"
    || lower == "chassis serial number"

/-- WMI row `Win32_BaseBoard` (src/src/info/baseboard.rs:20-31). -/
structure Win32BaseBoard where
  manufacturer : Option String
  product : Option String
  version : Option String
  serial_number : Option String
  tag : Option String
deriving DecidableEq

/-- `BaseboardInfo` (src/src/info/baseboard.rs:8-15). -/
structure BaseboardInfo where
  manufacturer : String
  product_name : String
  version : String
  serial_number : String
  asset_tag : String
  location : String
deriving DecidableEq

/-- `BaseboardInfo::collect_windows` (src/src/info/baseboard.rs:46-88), with
the WMI query result as an explicit input. -/
def BaseboardInfo.collectWindows (boards : List Win32BaseBoard) : BaseboardInfo :=
  let board := boards.head?
  { manufacturer := ((board.bind (fun b => b.manufacturer)).filter
        (fun s => !baseboardIsPlaceholder s)).getD "N/A"
    product_name := ((board.bind (fun b => b.product)).filter
        (fun s => !baseboardIsPlaceholder s)).getD "N/A"
    version := ((board.bind (fun b => b.version)).filter
        (fun s => !baseboardIsPlaceholder s)).getD "N/A"
    serial_number := ((board.bind (fun b => b.serial_number)).filter
        (fun s => !baseboardIsPlaceholder s)).getD "N/A"
    asset_tag := ((board.bind (fun b => b.tag)).filter
        (fun s => !baseboardIsPlaceholder s)).getD "N/A"
    location := "(Integrated)" }

/-! ## Collectors: ChassisInfo placeholder filter (src/src/info/chassis.rs) -/

/-- `is_placeholder` of src/src/info/chassis.rs:158-168. -/
def chassisIsPlaceholder (s : String) : Bool :=
  let lower := lowerStr (strTrim s)
  lower == "" || strContains lower "to be filled" || strContains lower "o.e.m"
    || lower == "default string" || lower == "not specified" || lower == "none"
    || lower == "unknown" || lower == "chassis serial number"

/-! ## Collectors: DiskInfo (src/src/info/disk.rs) -/

/-- `DiskEntry` (src/src/info/disk.rs:8-15). -/
structure DiskEntry where
  model : String
  storage_query : String
  smart_data : String
  wwn : String
  scsi : String
  ata : String
deriving DecidableEq

/-- WMI row `Win32_DiskDrive` (src/src/info/disk.rs:25-41); only the fields the
collector reads are modelled. -/
structure Win32DiskDrive where
  model : Option String
  serial_number : Option String
  interface_type : Option String
  status : Option String
deriving DecidableEq

/-- WMI row `MSFT_Disk` (src/src/info/disk.rs:46-53). -/
structure MsftDisk where
  friendly_name : Option String
  serial_number : Option String
  unique_id : Option String
deriving DecidableEq

/-- `DiskInfo` (src/src/info/disk.rs:18-20). -/
structure DiskInfo where
  disks : List DiskEntry
deriving DecidableEq

/-- The per-drive body of the `for (i, drive) in drives.iter().enumerate()`
loop of `DiskInfo::collect_windows` (src/src/info/disk.rs:94-131). -/
def diskEntryOf (msftDisks : List MsftDisk) (i : Nat) (drive : Win32DiskDrive) : DiskEntry :=
  let model := drive.model.getD "Unknown"
  let interface := drive.interface_type.getD "Unknown"
  let storage_query := (((drive.serial_number.map (fun s => strTrim s)).filter
      (fun s => !(s == ""))).getD "N/A")
  let smart_data := (drive.status.map
      (fun s => if s = "OK" then "OK" else "Status: " ++ s)).getD "N/A"
  let wwn := ((msftDisks.get? i).bind (fun d => d.unique_id)).getD "N/A"
  let scsiAta : String × String :=
    if interface = "SCSI" then ("Supported", "N/A")
    else if interface = "IDE" ∨ interface = "ATA" then ("N/A", "Supported")
    else if interface = "USB" then ("USB", "N/A")
    else if strContains interface "NVMe" then ("NVMe", "N/A")
    else (interface, "N/A")
  { model := model, storage_query := storage_query, smart_data := smart_data
    wwn := wwn, scsi := scsiAta.1, ata := scsiAta.2 }

/-- `DiskInfo::collect_windows` (src/src/info/disk.rs:67-134), with the two
query results as explicit inputs. -/
def DiskInfo.collectWindows (drives : List Win32DiskDrive)
    (msftDisks : List MsftDisk) : DiskInfo :=
  { disks := drives.enum.map (fun p => diskEntryOf msftDisks p.1 p.2) }

/-! ## Collectors: NetworkInfo (src/src/info/network.rs) -/

/-- `NetworkInterface` (src/src/info/network.rs:8-12). -/
structure NetworkInterface where
  name : String
  mac_address : String
  ip_address : String
deriving DecidableEq

/-- WMI row `Win32_NetworkAdapter` (src/src/info/network.rs:22-34); only the
fields the collector reads are modelled. -/
structure Win32NetworkAdapter where
  name : Option String
  mac_address : Option String
deriving DecidableEq

/-- WMI row `Win32_NetworkAdapterConfiguration` (src/src/info/network.rs:39-51). -/
structure Win32NetworkAdapterConfiguration where
  mac_address : Option String
  ip_address : Option (List String)
deriving DecidableEq

/-- `NetworkInfo` (src/src/info/network.rs:15-17). -/
structure NetworkInfo where
  interfaces : List NetworkInterface
deriving DecidableEq

/-- `NetworkInfo::collect_windows` (src/src/info/network.rs:66-115): adapters
without a MAC are skipped (`continue`), the IP comes from the first matching
configuration, defaulting to the empty string (`unwrap_or_default`). -/
def NetworkInfo.collectWindows (adapters : List Win32NetworkAdapter)
    (configs : List Win32NetworkAdapterConfiguration) : NetworkInfo :=
  { interfaces := adapters.filterMap (fun adapter =>
      match adapter.mac_address with
      | none => none
      | some mac =>
        let name := adapter.name.getD "Unknown"
        let ip := (((configs.find? (fun c => c.mac_address == some mac)).bind
            (fun c => c.ip_address)).bind (fun ips => ips.head?)).getD ""
        some { name := name, mac_address := mac, ip_address := ip }) }

/-! ## Collectors: GpuInfo (src/src/info/gpu.rs) and MonitorInfo (src/src/info/monitor.rs) -/

/-- `GpuEntry` (src/src/info/gpu.rs:13-19). -/
structure GpuEntry where
  pci_device : String
  name : String
  guid : String
  vram : String
  vendor : String
deriving DecidableEq

/-- `GpuInfo::get_gpu_guid` (src/src/info/gpu.rs:128-148) with the registry
`ClassGUID` read as an explicit input (`none` models any failing
`open_subkey`/`get_value` chain; `pnp_id.replace('\\', "\\")` is the identity
and only selects which key is read). -/
def getGpuGuid (classGuid : Option String) (vendor : String) : String :=
  match classGuid with
  | some guid => guid
  | none =>
    if strContains vendor "AMD" || strContains vendor "Radeon" then
      "N/A (LIKELY AMD GPU)"
    else "N/A"

/-- `MonitorEntry` (src/src/info/monitor.rs:13-20). -/
structure MonitorEntry where
  display_name : String
  manufacturer : String
  model : String
  serial_number : String
  id_serial : String
  resolution : String
deriving DecidableEq

/-! ## App::export_serials (src/src/app.rs:142-209)

The `App` fields that `export_serials` reads are gathered into one structure
(`self.system_info.serial_number` becomes `system_serial_number`, and so on);
the `chrono` timestamp is an explicit `generated` input.  The model produces
the `content` string; writing it to `serials_export.txt` is I/O and out of
scope of the claims. -/

/-- The snapshot fields read by `App::export_serials` (src/src/app.rs:73-86,142-201). -/
structure App where
  system_serial_number : String
  system_uuid : String
  system_sku : String
  baseboard_serial_number : String
  baseboard_asset_tag : String
  processor_serial_number : String
  processor_part_number : String
  chassis_serial_number : String
  chassis_asset_tag : String
  chassis_sku : String
  disks : List DiskEntry
  network_interfaces : List NetworkInterface
  monitors : List MonitorEntry
  gpus : List GpuEntry
deriving DecidableEq

/-- The `content` string built by `App::export_serials` (src/src/app.rs:142-201);
each `++`-segment is one `push_str`/`push` of the source. -/
def exportContent (a : App) (generated : String) : String :=
  "=== SERIAL EXPORT ===\n"
  ++ ("Generated: " ++ generated ++ "\n\n")
  ++ "=== SYSTEM ===\n"
  ++ ("Serial Number: " ++ a.system_serial_number ++ "\n")
  ++ ("UUID: " ++ a.system_uuid ++ "\n")
  ++ ("SKU: " ++ a.system_sku ++ "\n\n")
  ++ "=== BASEBOARD ===\n"
  ++ ("Serial Number: " ++ a.baseboard_serial_number ++ "\n")
  ++ ("Asset Tag: " ++ a.baseboard_asset_tag ++ "\n\n")
  ++ "=== PROCESSOR ===\n"
  ++ ("Serial Number: " ++ a.processor_serial_number ++ "\n")
  ++ ("Part Number: " ++ a.processor_part_number ++ "\n\n")
  ++ "=== CHASSIS ===\n"
  ++ ("Serial Number: " ++ a.chassis_serial_number ++ "\n")
  ++ ("Asset Tag: " ++ a.chassis_asset_tag ++ "\n")
  ++ ("SKU: " ++ a.chassis_sku ++ "\n\n")
  ++ "=== DISKS ===\n"
  ++ String.join (a.disks.enum.map (fun p =>
      "Disk " ++ toString (p.1 + 1) ++ ": " ++ p.2.model ++ "\n"
      ++ "  Serial (Storage Query): " ++ p.2.storage_query ++ "\n"
      ++ "  WWN: " ++ p.2.wwn ++ "\n"))
  ++ "\n"
  ++ "=== NETWORK ===\n"
  ++ String.join (a.network_interfaces.map (fun iface =>
      iface.name ++ ": " ++ iface.mac_address ++ "\n"))
  ++ "\n"
  ++ "=== MONITORS ===\n"
  ++ String.join (a.monitors.map (fun monitor =>
      monitor.display_name ++ ": " ++ monitor.model ++ "\n"
      ++ "  Serial Number: " ++ monitor.serial_number ++ "\n"
      ++ "  ID Serial: " ++ monitor.id_serial ++ "\n"))
  ++ "\n"
  ++ "=== GPU ===\n"
  ++ String.join (a.gpus.map (fun gpu =>
      gpu.name ++ "\n"
      ++ "  PCI Device: " ++ gpu.pci_device ++ "\n"
      ++ "  GUID: " ++ gpu.guid ++ "\n"))

/-! ## General lemmas about the string helpers -/

theorem mk_data (s : String) : String.mk s.data = s := rfl

theorem dropWhile_head_false {p : Char → Bool} {c : Char} {l : List Char}
    (h : p c = false) : List.dropWhile p (c :: l) = c :: l := by
  simp only [List.dropWhile, h]

theorem length_dropWhile_le (p : Char → Bool) (l : List Char) :
    (l.dropWhile p).length ≤ l.length :=
  (List.dropWhile_suffix p).sublist.length_le

theorem head_false_of_dropWhile {p : Char → Bool} {c : Char} {l : List Char}
    (h : List.dropWhile p (c :: l) = c :: l) : p c = false := by
  by_contra hp
  rw [Bool.not_eq_false] at hp
  have h2 : List.dropWhile p (c :: l) = List.dropWhile p l := by
    simp only [List.dropWhile, hp]
  rw [h2] at h
  have hle := length_dropWhile_le p l
  rw [h] at hle
  simp at hle

theorem dropWhile_idem (p : Char → Bool) (l : List Char) :
    List.dropWhile p (List.dropWhile p l) = List.dropWhile p l := by
  induction l with
  | nil => rfl
  | cons c rest ih =>
    cases hp : p c
    · rw [dropWhile_head_false hp, dropWhile_head_false hp]
    · have h2 : List.dropWhile p (c :: rest) = List.dropWhile p rest := by
        simp only [List.dropWhile, hp]
      rw [h2, ih]

theorem rtrimChars_prefix_self (l : List Char) : (rtrimChars l) <+: l := by
  obtain ⟨t, ht⟩ := List.dropWhile_suffix (l := l.reverse) Char.isWhitespace
  refine ⟨t.reverse, ?_⟩
  calc rtrimChars l ++ t.reverse
      = (t ++ l.reverse.dropWhile Char.isWhitespace).reverse := by
        rw [List.reverse_append]; rfl
    _ = l.reverse.reverse := by rw [ht]
    _ = l := List.reverse_reverse l

theorem length_rtrimChars_le (l : List Char) : (rtrimChars l).length ≤ l.length :=
  (rtrimChars_prefix_self l).sublist.length_le

theorem trim_fix_split {l : List Char} (h : trimChars l = l) :
    ltrimChars l = l ∧ rtrimChars l = l := by
  have h1 : (ltrimChars l).length ≤ l.length := length_dropWhile_le _ l
  have h2 : (trimChars l).length ≤ (ltrimChars l).length := length_rtrimChars_le _
  rw [h] at h2
  have hlen : (ltrimChars l).length = l.length := le_antisymm h1 h2
  have hl : ltrimChars l = l :=
    List.Sublist.eq_of_length (List.dropWhile_suffix _).sublist hlen
  refine ⟨hl, ?_⟩
  have h3 := h
  unfold trimChars at h3
  rw [hl] at h3
  exact h3

theorem rtrim_fix_iff {l : List Char} :
    rtrimChars l = l ↔ List.dropWhile Char.isWhitespace l.reverse = l.reverse := by
  unfold rtrimChars
  constructor
  · intro h
    have h2 := congrArg List.reverse h
    rwa [List.reverse_reverse] at h2
  · intro h
    rw [h, List.reverse_reverse]

theorem ltrim_rtrim_of_ltrim_fix {l : List Char} (h : ltrimChars l = l) :
    ltrimChars (rtrimChars l) = rtrimChars l := by
  rcases hr : rtrimChars l with _ | ⟨c, t⟩
  · rfl
  · obtain ⟨rest, hrest⟩ := rtrimChars_prefix_self l
    rw [hr] at hrest
    have hl : l = c :: (t ++ rest) := by rw [← hrest]; rfl
    have hc : Char.isWhitespace c = false := by
      apply head_false_of_dropWhile (l := t ++ rest)
      rw [hl] at h
      exact h
    exact dropWhile_head_false hc

theorem trimChars_idem (l : List Char) : trimChars (trimChars l) = trimChars l := by
  unfold trimChars
  have hll : ltrimChars (ltrimChars l) = ltrimChars l := dropWhile_idem _ _
  have hb : ltrimChars (rtrimChars (ltrimChars l)) = rtrimChars (ltrimChars l) :=
    ltrim_rtrim_of_ltrim_fix hll
  rw [hb]
  unfold rtrimChars
  rw [List.reverse_reverse, dropWhile_idem]

theorem strTrim_idem (s : String) : strTrim (strTrim s) = strTrim s := by
  unfold strTrim
  rw [show (String.mk (trimChars s.data)).data = trimChars s.data from rfl, trimChars_idem]

theorem trimChars_sublist (l : List Char) : List.Sublist (trimChars l) l :=
  ((rtrimChars_prefix_self (ltrimChars l)).sublist).trans (List.dropWhile_suffix _).sublist

theorem mem_of_mem_trimChars {c : Char} {l : List Char} (h : c ∈ trimChars l) : c ∈ l :=
  (trimChars_sublist l).subset h

theorem splitOnceChar_of_not_mem {sep : Char} {l : List Char} (h : sep ∉ l) :
    splitOnceChar sep l = none := by
  induction l with
  | nil => rfl
  | cons c rest ih =>
    have hc : (c == sep) = false := by
      simp only [beq_eq_false_iff_ne, ne_eq]
      intro he
      exact h (he ▸ List.mem_cons_self c rest)
    have ih2 := ih (fun hm => h (List.mem_cons_of_mem _ hm))
    simp [splitOnceChar, hc, List.append_eq, ih2]

theorem splitOnceChar_append {sep : Char} {K : List Char} (rest : List Char)
    (hK : sep ∉ K) : splitOnceChar sep (K ++ sep :: rest) = some (K, rest) := by
  induction K with
  | nil => simp [splitOnceChar]
  | cons c t ih =>
    have hc : (c == sep) = false := by
      simp only [beq_eq_false_iff_ne, ne_eq]
      intro he
      exact hK (he ▸ List.mem_cons_self c t)
    have ih2 := ih (fun hm => hK (List.mem_cons_of_mem _ hm))
    simp [splitOnceChar, hc, List.append_eq, ih2]

theorem splitOnChar_of_not_mem {sep : Char} {l : List Char} (h : sep ∉ l) :
    splitOnChar sep l = [l] := by
  induction l with
  | nil => rfl
  | cons c rest ih =>
    have hc : (c == sep) = false := by
      simp only [beq_eq_false_iff_ne, ne_eq]
      intro he
      exact h (he ▸ List.mem_cons_self c rest)
    have ih2 := ih (fun hm => h (List.mem_cons_of_mem _ hm))
    simp [splitOnChar, hc, List.append_eq, ih2]

theorem splitOnChar_append {sep : Char} {l₁ : List Char} (l₂ : List Char) (h : sep ∉ l₁) :
    splitOnChar sep (l₁ ++ sep :: l₂) = l₁ :: splitOnChar sep l₂ := by
  induction l₁ with
  | nil => simp [splitOnChar]
  | cons c t ih =>
    have hc : (c == sep) = false := by
      simp only [beq_eq_false_iff_ne, ne_eq]
      intro he
      exact h (he ▸ List.mem_cons_self c t)
    have ih2 := ih (fun hm => h (List.mem_cons_of_mem _ hm))
    simp [splitOnChar, hc, List.append_eq, ih2]

theorem splitLines_append (l rest : String) (h : '\n' ∉ l.data) :
    splitLines (l ++ "\n" ++ rest) = l :: splitLines rest := by
  unfold splitLines
  have hd : (l ++ "\n" ++ rest).data = l.data ++ '\n' :: rest.data := by
    rw [String.data_append, String.data_append]
    simp
  rw [hd, splitOnChar_append _ h, List.map_cons, mk_data]

/-! ## Definitions following the specification's wording (for the refinement-style claims) -/

/-- The optional baseline scalar selected by a comparison category key
(spec ¶4.4, claim C2/C10 wording). -/
def scalarBaselineFor (b : PreviousSerials) (category : String) : Option String :=
  match category with
  | "system_serial" => b.system_serial
  | "system_uuid" => b.system_uuid
  | "system_sku" => b.system_sku
  | "baseboard_serial" => b.baseboard_serial
  | "processor_serial" => b.processor_serial
  | "chassis_serial" => b.chassis_serial
  | _ => none

/-- The baseline list selected by a list comparison category key
(spec ¶4.4, claim C3/C10 wording). -/
def baselineListFor (b : PreviousSerials) (category : String) : List String :=
  match category with
  | "disk" => b.disk_serials
  | "network" => b.network_macs
  | "monitor" => b.monitor_serials
  | "gpu" => b.gpu_guids
  | _ => []

theorem compare_eq_spec (b : PreviousSerials) (category current : String) :
    b.compare category current =
      (if current = "" ∨ current = "N/A" then SerialStatus.New
       else
        match scalarBaselineFor b category with
        | some old =>
          if old = current then SerialStatus.Unchanged else SerialStatus.Changed old
        | none => SerialStatus.New) := by
  unfold PreviousSerials.compare scalarBaselineFor
  rfl

theorem compare_list_eq_spec (b : PreviousSerials) (category current : String) :
    b.compare_list category current =
      (if current = "" ∨ current = "N/A" then SerialStatus.New
       else if category = "disk" ∨ category = "network" ∨ category = "monitor"
            ∨ category = "gpu" then
        (if (baselineListFor b category).isEmpty then SerialStatus.New
         else if (baselineListFor b category).any (fun s => s == current) then
           SerialStatus.Unchanged
         else SerialStatus.Changed "(different from previous)")
       else SerialStatus.New) := by
  have hsel : (match category with
      | "disk" => some b.disk_serials
      | "network" => some b.network_macs
      | "monitor" => some b.monitor_serials
      | "gpu" => some b.gpu_guids
      | _ => none) =
      (if category = "disk" ∨ category = "network" ∨ category = "monitor"
        ∨ category = "gpu" then some (baselineListFor b category) else none) := by
    split
    · simp [baselineListFor]
    · simp [baselineListFor]
    · simp [baselineListFor]
    · simp [baselineListFor]
    · rename_i h1 h2 h3 h4
      rw [if_neg]
      push_neg
      exact ⟨h1, h2, h3, h4⟩
  unfold PreviousSerials.compare_list
  rw [hsel]
  by_cases hcur : current = "" ∨ current = "N/A"
  · rw [if_pos hcur, if_pos hcur]
  · rw [if_neg hcur, if_neg hcur]
    by_cases hcat : category = "disk" ∨ category = "network" ∨ category = "monitor"
        ∨ category = "gpu"
    · rw [if_pos hcat, if_pos hcat]
    · rw [if_neg hcat, if_neg hcat]

theorem bor_left {a b : Bool} (h : a = true) : (a || b) = true := by
  rw [h, Bool.true_or]

theorem bor_right {a b : Bool} (h : b = true) : (a || b) = true := by
  rw [h, Bool.or_true]

theorem perm_any_eq (l₁ l₂ : List String) (h : List.Perm l₁ l₂) (p : String → Bool) :
    l₁.any p = l₂.any p := by
  cases hb : l₂.any p
  · simp only [List.any_eq_false] at hb ⊢
    intro x hx
    exact hb x (h.mem_iff.mp hx)
  · simp only [List.any_eq_true] at hb ⊢
    obtain ⟨x, hx, hpx⟩ := hb
    exact ⟨x, h.mem_iff.mpr hx, hpx⟩

/-- Claim C2: for every baseline, category and current string, `compare`
returns `New` when `current` is the empty string or the sentinel "N/A";
otherwise it looks up the single optional baseline scalar selected by the
category key and returns `New` when that scalar is absent, `Unchanged` when it
is exactly equal to `current` (exact string equality), and `Changed` carrying
the baseline value otherwise. -/
theorem claim_C2_compare_scalar (b : PreviousSerials) (category current : String) :
    b.compare category current =
      (if current = "" ∨ current = "N/A" then SerialStatus.New
       else
        match scalarBaselineFor b category with
        | some old =>
          if old = current then SerialStatus.Unchanged else SerialStatus.Changed old
        | none => SerialStatus.New) :=
  compare_eq_spec b category current

/-- Claim C3: for every baseline, list category and non-empty non-sentinel
current value, `compare_list` returns `New` when the selected baseline list is
empty, `Unchanged` when `current` occurs anywhere in it (membership, hence
invariance under permutation of the baseline list), and otherwise `Changed`
whose old field is exactly "(different from previous)". -/
theorem claim_C3_compare_list (b : PreviousSerials) (category current : String)
    (hcat : category = "disk" ∨ category = "network" ∨ category = "monitor"
      ∨ category = "gpu")
    (hne : current ≠ "") (hna : current ≠ "N/A") :
    (baselineListFor b category = [] →
      b.compare_list category current = SerialStatus.New) ∧
    (current ∈ baselineListFor b category →
      b.compare_list category current = SerialStatus.Unchanged) ∧
    (baselineListFor b category ≠ [] → current ∉ baselineListFor b category →
      b.compare_list category current = SerialStatus.Changed "(different from previous)") ∧
    (∀ b₂ : PreviousSerials,
      List.Perm (baselineListFor b₂ category) (baselineListFor b category) →
      b₂.compare_list category current = b.compare_list category current) := by
  have hrw : ∀ b' : PreviousSerials, b'.compare_list category current =
      (if (baselineListFor b' category).isEmpty then SerialStatus.New
       else if (baselineListFor b' category).any (fun s => s == current) then
         SerialStatus.Unchanged
       else SerialStatus.Changed "(different from previous)") := by
    intro b'
    rw [compare_list_eq_spec, if_neg (by simp [hne, hna]), if_pos hcat]
  refine ⟨?_, ?_, ?_, ?_⟩
  · intro hempty
    rw [hrw b, hempty]
    rfl
  · intro hmem
    have h1 : (baselineListFor b category).isEmpty = false := by
      rcases hl : baselineListFor b category with _ | _
      · rw [hl] at hmem; cases hmem
      · rfl
    have h2 : (baselineListFor b category).any (fun s => s == current) = true :=
      List.any_eq_true.mpr ⟨current, hmem, by simp⟩
    rw [hrw b, h1, h2]
    simp
  · intro hnonempty hnotmem
    have h1 : (baselineListFor b category).isEmpty = false := by
      rcases hl : baselineListFor b category with _ | _
      · exact absurd hl hnonempty
      · rfl
    have h2 : (baselineListFor b category).any (fun s => s == current) = false := by
      cases hany : (baselineListFor b category).any (fun s => s == current)
      · rfl
      · exfalso
        obtain ⟨x, hx, hpx⟩ := List.any_eq_true.mp hany
        rw [beq_iff_eq] at hpx
        exact hnotmem (hpx ▸ hx)
    rw [hrw b, h1, h2]
    simp
  · intro b₂ hperm
    have hemp : (baselineListFor b₂ category).isEmpty
        = (baselineListFor b category).isEmpty := by
      rw [Bool.eq_iff_iff, List.isEmpty_iff, List.isEmpty_iff]
      constructor
      · intro h
        have hp := hperm
        rw [h] at hp
        exact (hp.symm).eq_nil
      · intro h
        have hp := hperm
        rw [h] at hp
        exact hp.eq_nil
    rw [hrw b, hrw b₂, hemp, perm_any_eq _ _ hperm _]

/-- Witness for claim C3 at a concrete baseline (spec ¶8 example): membership
anywhere in the baseline disk list yields `Unchanged`. -/
def c3Baseline : PreviousSerials :=
  { PreviousSerials.default with disk_serials := ["SN-1", "SN-42"] }

theorem claim_C3_witness :
    c3Baseline.compare_list "disk" "SN-42" = SerialStatus.Unchanged :=
  (claim_C3_compare_list c3Baseline "disk" "SN-42" (Or.inl rfl) (by decide)
    (by decide)).2.1 (by decide)

/-- Claim C10: with a non-empty non-sentinel current value, `compare` with a
category outside the six scalar categories returns `New`, and `compare_list`
with a category outside the four list categories returns `New`; an
unrecognized category never yields `Unchanged` or `Changed`. -/
theorem claim_C10_unknown_category (b : PreviousSerials) (category current : String)
    (hne : current ≠ "") (hna : current ≠ "N/A") :
    (category ∉ (["system_serial", "system_uuid", "system_sku", "baseboard_serial",
        "processor_serial", "chassis_serial"] : List String) →
      b.compare category current = SerialStatus.New) ∧
    (category ∉ (["disk", "network", "monitor", "gpu"] : List String) →
      b.compare_list category current = SerialStatus.New) := by
  constructor
  · intro hmem
    rw [compare_eq_spec, if_neg (by simp [hne, hna])]
    have hsel : scalarBaselineFor b category = none := by
      unfold scalarBaselineFor
      split <;> simp_all
    rw [hsel]
  · intro hmem
    have hcat : ¬(category = "disk" ∨ category = "network" ∨ category = "monitor"
        ∨ category = "gpu") := by
      intro hcat
      rcases hcat with h | h | h | h <;> exact hmem (by simp [h])
    rw [compare_list_eq_spec, if_neg (by simp [hne, hna]), if_neg hcat]

theorem claim_C10_witness :
    PreviousSerials.default.compare "bogus_category" "XYZ" = SerialStatus.New ∧
    PreviousSerials.default.compare_list "bogus_category" "XYZ" = SerialStatus.New :=
  ⟨(claim_C10_unknown_category PreviousSerials.default "bogus_category" "XYZ"
      (by decide) (by decide)).1 (by decide),
   (claim_C10_unknown_category PreviousSerials.default "bogus_category" "XYZ"
      (by decide) (by decide)).2 (by decide)⟩

/-- Claim C4: every posture evaluated by `detect_windows` has
`overall_locked = is_oem_system || secure_boot_enforced || bios_write_protected`,
the `Default` posture has `overall_locked = false`, and in particular
`tpm_locked` alone (the three OR-ed flags false) never makes
`overall_locked` true. -/
theorem claim_C4_overall_locked :
    (∀ reg : RegistryView,
      (LockedMotherboardInfo.detectWindows reg).overall_locked =
        ((LockedMotherboardInfo.detectWindows reg).is_oem_system
          || (LockedMotherboardInfo.detectWindows reg).secure_boot_enforced
          || (LockedMotherboardInfo.detectWindows reg).bios_write_protected)) ∧
    LockedMotherboardInfo.default.overall_locked = false ∧
    (∀ reg : RegistryView,
      (LockedMotherboardInfo.detectWindows reg).is_oem_system = false →
      (LockedMotherboardInfo.detectWindows reg).secure_boot_enforced = false →
      (LockedMotherboardInfo.detectWindows reg).bios_write_protected = false →
      (LockedMotherboardInfo.detectWindows reg).overall_locked = false) := by
  have key : ∀ reg : RegistryView,
      (LockedMotherboardInfo.detectWindows reg).overall_locked =
        ((LockedMotherboardInfo.detectWindows reg).is_oem_system
          || (LockedMotherboardInfo.detectWindows reg).secure_boot_enforced
          || (LockedMotherboardInfo.detectWindows reg).bios_write_protected) := by
    intro reg
    rcases hscan : oemScan reg.systemManufacturer with ⟨isOem, vendor, rs⟩
    simp [LockedMotherboardInfo.detectWindows, hscan]
  refine ⟨key, rfl, ?_⟩
  intro reg h1 h2 h3
  rw [key reg, h1, h2, h3]
  rfl

/-- Registry snapshot in which only the TPM service is active: its evaluated
posture has `tpm_locked = true` and all three OR-ed lock flags false. -/
def tpmOnlyReg : RegistryView :=
  { systemManufacturer := none, uefiSecureBootEnabled := none, tpmStart := some 2,
    vbsEnabled := none, hvciEnabled := none }

theorem claim_C4_witness :
    (LockedMotherboardInfo.detectWindows tpmOnlyReg).tpm_locked = true ∧
    (LockedMotherboardInfo.detectWindows tpmOnlyReg).overall_locked = false :=
  ⟨by decide,
   claim_C4_overall_locked.2.2 tpmOnlyReg (by decide) (by decide) (by decide)⟩

/-- Counterexample to claim C5 as stated: an evaluated lock posture with
`tpm_locked = true` but `overall_locked = false` (TPM service active, no OEM
lock, no secure boot, no VBS/HVCI) yields a spoofing-advice list containing no
"TPM"-category entry at all, because `generate_spoofing_advice` only emits the
TPM entry inside the `overall_locked` branch. -/
theorem claim_C5_counterexample :
    (LockedMotherboardInfo.detectWindows tpmOnlyReg).tpm_locked = true ∧
    (generate_spoofing_advice (LockedMotherboardInfo.detectWindows tpmOnlyReg)).all
      (fun a => !(a.category == "TPM")) = true := by decide

/-- Claim C5 (amended): for every lock posture with `overall_locked = true` and
`tpm_locked = true`, the advisory list contains the "Medium"-difficulty TPM
entry; when `overall_locked = false` the TPM entry is not produced even with
`tpm_locked = true`. -/
theorem claim_C5_tpm_advice (info : LockedMotherboardInfo)
    (hlock : info.overall_locked = true) (htpm : info.tpm_locked = true) :
    (generate_spoofing_advice info).any
      (fun a => a.category == "TPM" && a.difficulty == "Medium") = true := by
  unfold generate_spoofing_advice
  rw [hlock, htpm]
  cases hsb : info.secure_boot_enforced <;> decide

/-- Registry snapshot evaluating to an OEM-locked posture with active TPM. -/
def dellTpmReg : RegistryView :=
  { systemManufacturer := some "Dell Inc.", uefiSecureBootEnabled := none,
    tpmStart := some 2, vbsEnabled := none, hvciEnabled := none }

theorem claim_C5_witness :
    (generate_spoofing_advice (LockedMotherboardInfo.detectWindows dellTpmReg)).any
      (fun a => a.category == "TPM" && a.difficulty == "Medium") = true :=
  claim_C5_tpm_advice _ (by decide) (by decide)

/-- The placeholder criterion exactly as the specification and claim C6 word
it: after trimming, case-insensitively empty, containing "to be filled",
containing a spelling variant of "o.e.m"/"oem", or exactly one of the eight
listed known-bogus literals. -/
def specC6Placeholder (s : String) : Bool :=
  let lower := lowerStr (strTrim s)
  lower == "" || strContains lower "to be filled" || strContains lower "o.e.m"
    || strContains lower "oem" || lower == "default string"
    || lower == "not specified" || lower == "none" || lower == "unknown"
    || lower == "system serial number" || lower == "system product name"
    || lower == "base board serial number" || lower == "chassis serial number"

/-- Counterexample to claim C6 as stated: "oem" falls under the claim's
criterion (a spelling variant of "o.e.m"/"oem") yet `is_placeholder` of
src/src/info/system.rs rejects it, and the listed literal
"system serial number" is rejected by `is_placeholder` of
src/src/info/chassis.rs; the three collectors' filters are not identical. -/
theorem claim_C6_counterexample :
    specC6Placeholder "oem" = true ∧ systemIsPlaceholder "oem" = false ∧
    specC6Placeholder "system serial number" = true ∧
    chassisIsPlaceholder "system serial number" = false := by decide

/-- The criteria shared by all three `is_placeholder` filters (the
intersection of src/src/info/{system,baseboard,chassis}.rs). -/
def commonPlaceholder (s : String) : Bool :=
  let lower := lowerStr (strTrim s)
  lower == "" || strContains lower "to be filled" || strContains lower "o.e.m"
    || lower == "default string" || lower == "not specified" || lower == "none"
    || lower == "unknown"

/-- Claim C6 (amended): every collector's `is_placeholder` accepts the shared
criteria (empty, "to be filled", "o.e.m" substring, and the four common
literals); the remaining criteria are collector-specific — the
"system ..." template echoes are accepted by the system and baseboard
filters, "chassis serial number" by the chassis and baseboard filters, and a
bare "oem" substring, "n/a" and "base board serial number" only by the
baseboard filter; all three reject the realistic serial "PF3ABCDE". -/
theorem claim_C6_placeholders :
    (∀ s, commonPlaceholder s = true →
      systemIsPlaceholder s = true ∧ baseboardIsPlaceholder s = true ∧
        chassisIsPlaceholder s = true) ∧
    (∀ s, lowerStr (strTrim s) = "system serial number" ∨
          lowerStr (strTrim s) = "system product name" →
      systemIsPlaceholder s = true ∧ baseboardIsPlaceholder s = true) ∧
    (∀ s, lowerStr (strTrim s) = "chassis serial number" →
      chassisIsPlaceholder s = true ∧ baseboardIsPlaceholder s = true) ∧
    (∀ s, strContains (lowerStr (strTrim s)) "oem" = true ∨
          lowerStr (strTrim s) = "n/a" ∨
          lowerStr (strTrim s) = "base board serial number" →
      baseboardIsPlaceholder s = true) ∧
    (systemIsPlaceholder "PF3ABCDE" = false ∧
      baseboardIsPlaceholder "PF3ABCDE" = false ∧
      chassisIsPlaceholder "PF3ABCDE" = false) := by
  refine ⟨?_, ?_, ?_, ?_, by decide⟩
  · intro s h
    refine ⟨bor_left (bor_left h), ?_, bor_left h⟩
    have h9 := h
    simp only [commonPlaceholder, Bool.or_eq_true] at h9
    simp only [baseboardIsPlaceholder]
    rcases h9 with ((((((h1 | h1) | h1) | h1) | h1) | h1) | h1)
    · exact bor_left (bor_left (bor_left (bor_left (bor_left (bor_left (bor_left
        (bor_left (bor_left (bor_left (bor_left (bor_left h1)))))))))))
    · exact bor_left (bor_left (bor_left (bor_left (bor_left (bor_left (bor_left
        (bor_left (bor_left (bor_left (bor_left (bor_right h1)))))))))))
    · exact bor_left (bor_left (bor_left (bor_left (bor_left (bor_left (bor_left
        (bor_left (bor_left (bor_left (bor_right h1))))))))))
    · exact bor_left (bor_left (bor_left (bor_left (bor_left (bor_left (bor_left
        (bor_left (bor_right h1))))))))
    · exact bor_left (bor_left (bor_left (bor_left (bor_left (bor_left (bor_left
        (bor_right h1)))))))
    · exact bor_left (bor_left (bor_left (bor_left (bor_left (bor_left
        (bor_right h1))))))
    · exact bor_left (bor_left (bor_left (bor_left (bor_right h1))))
  · intro s h
    constructor
    · simp only [systemIsPlaceholder]
      rcases h with h | h <;> rw [h] <;> decide
    · simp only [baseboardIsPlaceholder]
      rcases h with h | h <;> rw [h] <;> decide
  · intro s h
    constructor
    · simp only [chassisIsPlaceholder]
      rw [h]
      decide
    · simp only [baseboardIsPlaceholder]
      rw [h]
      decide
  · intro s h
    simp only [baseboardIsPlaceholder]
    rcases h with h | h | h
    · exact bor_left (bor_left (bor_left (bor_left (bor_left (bor_left (bor_left
        (bor_left (bor_left (bor_right h)))))))))
    · rw [h]
      decide
    · rw [h]
      decide

theorem claim_C6_witness :
    systemIsPlaceholder " To Be Filled By O.E.M. " = true ∧
    baseboardIsPlaceholder "OEMXX" = true ∧
    chassisIsPlaceholder "Default string" = true :=
  ⟨(claim_C6_placeholders.1 " To Be Filled By O.E.M. " (by decide)).1,
   claim_C6_placeholders.2.2.2.1 "OEMXX" (Or.inl (by decide)),
   (claim_C6_placeholders.1 "Default string" (by decide)).2.2⟩

/-- Counterexample input to claim C7: a WMI product row whose identifying
number carries surrounding whitespace. -/
def rawWhitespaceProduct : Win32ComputerSystemProduct :=
  { vendor := none, name := none, version := none,
    identifying_number := some " PF3ABCDE ", uuid := none, sku_number := none }

/-- Counterexample to claim C7 as stated: the collectors store the raw value
unchanged — `" PF3ABCDE "` is not a placeholder, and the stored scalar is the
untrimmed raw string, so a stored non-sentinel scalar can carry leading and
trailing whitespace, contradicting `normalize(raw) = trim(raw)`. -/
theorem claim_C7_counterexample :
    (SystemInfo.collectWindows [rawWhitespaceProduct] []).serial_number = " PF3ABCDE " ∧
    strTrim " PF3ABCDE " ≠ " PF3ABCDE " := by decide

/-- Claim C7 (amended): the normalization applied by the system and baseboard
collectors yields the sentinel "N/A" when the raw string is a placeholder and
yields the raw string unchanged (not trimmed) otherwise. -/
theorem claim_C7_normalization :
    (∀ (p : Win32ComputerSystemProduct) (rest : List Win32ComputerSystemProduct)
       (systems : List Win32ComputerSystem),
      (SystemInfo.collectWindows (p :: rest) systems).serial_number =
        (match p.identifying_number with
         | some raw => if systemIsPlaceholder raw then "N/A" else raw
         | none => "N/A") ∧
      (SystemInfo.collectWindows (p :: rest) systems).uuid =
        (match p.uuid with
         | some raw => if systemIsPlaceholder raw then "N/A" else raw
         | none => "N/A")) ∧
    (∀ (b : Win32BaseBoard) (rest : List Win32BaseBoard),
      (BaseboardInfo.collectWindows (b :: rest)).serial_number =
        (match b.serial_number with
         | some raw => if baseboardIsPlaceholder raw then "N/A" else raw
         | none => "N/A")) := by
  constructor
  · intro p rest systems
    constructor
    · simp only [SystemInfo.collectWindows, List.head?]
      cases hid : p.identifying_number with
      | none => simp [Option.filter, hid]
      | some raw =>
        cases hp : systemIsPlaceholder raw <;> simp [Option.filter, hid, hp]
    · simp only [SystemInfo.collectWindows, List.head?]
      cases hid : p.uuid with
      | none => simp [Option.filter, hid]
      | some raw =>
        cases hp : systemIsPlaceholder raw <;> simp [Option.filter, hid, hp]
  · intro b rest
    simp only [BaseboardInfo.collectWindows, List.head?]
    cases hid : b.serial_number with
    | none => simp [Option.filter, hid]
    | some raw =>
      cases hp : baseboardIsPlaceholder raw <;> simp [Option.filter, hid, hp]

/-- Counterexample inputs to claim C8: a drive whose WMI row carries a raw
vendor placeholder serial, and an MSFT_Disk row with an empty unique id. -/
def placeholderDrive : Win32DiskDrive :=
  { model := some "To Be Filled By O.E.M.",
    serial_number := some "To Be Filled By O.E.M.",
    interface_type := some "IDE", status := some "OK" }

def emptyUniqueIdDisk : MsftDisk :=
  { friendly_name := none, serial_number := none, unique_id := some "" }

/-- Counterexample to claim C8 as stated: the disk collector stores the
MSFT_Disk unique id and the drive serial without any placeholder filtering, so
a collected list element can hold the empty string (`wwn`) and a raw vendor
placeholder (`storage_query`). -/
theorem claim_C8_counterexample :
    ((DiskInfo.collectWindows [placeholderDrive] [emptyUniqueIdDisk]).disks.map
      (fun e => e.wwn)) = [""] ∧
    ((DiskInfo.collectWindows [placeholderDrive] [emptyUniqueIdDisk]).disks.map
      (fun e => e.storage_query)) = ["To Be Filled By O.E.M."] := by decide

/-- Claim C8 (amended): among the cited collectors only these normalizations
hold — every collected disk entry's `storage_query` is either the sentinel
"N/A" or a trimmed non-empty string, and when the registry lookup fails the
GPU guid is one of the two sentinel strings; the remaining list-element fields
are stored raw. -/
theorem claim_C8_field_invariant :
    (∀ (drives : List Win32DiskDrive) (msftDisks : List MsftDisk) (e : DiskEntry),
      e ∈ (DiskInfo.collectWindows drives msftDisks).disks →
      e.storage_query = "N/A" ∨
        (strTrim e.storage_query = e.storage_query ∧ e.storage_query ≠ "")) ∧
    (∀ vendor : String,
      getGpuGuid none vendor = "N/A" ∨
        getGpuGuid none vendor = "N/A (LIKELY AMD GPU)") := by
  constructor
  · intro drives msftDisks e he
    simp only [DiskInfo.collectWindows, List.mem_map] at he
    obtain ⟨⟨i, d⟩, hmem, rfl⟩ := he
    simp only [diskEntryOf]
    cases hsn : d.serial_number with
    | none => left; simp [hsn, Option.filter]
    | some s =>
      cases ht : strTrim s == "" with
      | true => left; simp [hsn, Option.filter, ht]
      | false =>
        right
        have hne : strTrim s ≠ "" := by simpa using ht
        have hidem := strTrim_idem s
        constructor <;> simp [hsn, Option.filter, ht, hidem, hne]
  · intro vendor
    unfold getGpuGuid
    cases h : (strContains vendor "AMD" || strContains vendor "Radeon") <;> simp [h]

/-- Concrete drive input for the claim C8 witness. -/
def rawSpacedDrive : Win32DiskDrive :=
  { model := none, serial_number := some " SN1 ", interface_type := none,
    status := none }

theorem claim_C8_witness :
    (diskEntryOf [] 0 rawSpacedDrive).storage_query = "N/A" ∨
      (strTrim (diskEntryOf [] 0 rawSpacedDrive).storage_query =
        (diskEntryOf [] 0 rawSpacedDrive).storage_query ∧
       (diskEntryOf [] 0 rawSpacedDrive).storage_query ≠ "") :=
  claim_C8_field_invariant.1 [rawSpacedDrive] [] (diskEntryOf [] 0 rawSpacedDrive)
    (by decide)

/-- All string values populated in a parsed baseline: the six optional scalars
followed by the four value lists. -/
def PreviousSerials.values (s : PreviousSerials) : List String :=
  s.system_serial.toList ++ s.system_uuid.toList ++ s.system_sku.toList
    ++ s.baseboard_serial.toList ++ s.processor_serial.toList
    ++ s.chassis_serial.toList ++ s.disk_serials ++ s.network_macs
    ++ s.monitor_serials ++ s.gpu_guids

theorem parseDispatch_values {sec key value : String} {s : PreviousSerials} {v : String}
    (hv : v ∈ (parseDispatch sec key value s).values) :
    v = value ∨ v ∈ s.values := by
  unfold parseDispatch at hv
  split at hv <;> (try split at hv) <;>
    simp_all only [PreviousSerials.values, List.mem_append, Option.toList,
      List.mem_cons, List.mem_singleton, List.not_mem_nil, or_false, false_or] <;>
    tauto

theorem parse_values_good (content : String) :
    ∀ v ∈ (PreviousSerials.parse content).values,
      strTrim v = v ∧ v ≠ "" ∧ v ≠ "N/A" := by
  have step : ∀ (st : String × PreviousSerials) (line : String),
      (∀ v ∈ st.2.values, strTrim v = v ∧ v ≠ "" ∧ v ≠ "N/A") →
      ∀ v ∈ (parseLine st line).2.values, strTrim v = v ∧ v ≠ "" ∧ v ≠ "N/A" := by
    rintro ⟨sec, ser⟩ line hgood v hv
    simp only [parseLine] at hv
    split at hv
    · exact hgood v hv
    · split at hv
      · exact hgood v hv
      · split at hv
        · exact hgood v hv
        · rename_i k v2 hguard
          rcases parseDispatch_values hv with rfl | hmem
          · refine ⟨strTrim_idem _, ?_, ?_⟩
            · intro h0
              exact hguard (Or.inl h0)
            · intro h0
              exact hguard (Or.inr h0)
          · exact hgood v hmem
  suffices h : ∀ (lines : List String) (st : String × PreviousSerials),
      (∀ v ∈ st.2.values, strTrim v = v ∧ v ≠ "" ∧ v ≠ "N/A") →
      ∀ v ∈ (lines.foldl parseLine st).2.values, strTrim v = v ∧ v ≠ "" ∧ v ≠ "N/A" by
    intro v hv
    exact h (splitLines content) ("", PreviousSerials.default)
      (by simp [PreviousSerials.default, PreviousSerials.values]) v hv
  intro lines
  induction lines with
  | nil => intro st h; exact h
  | cons l rest ih => intro st h; exact ih _ (step st l h)

/-- Claim C9: `parse` is total by construction (a Lean function defined on
every input string, including malformed or truncated content, always yielding
a `PreviousSerials`); a line without a colon never records a value (the
accumulated serials are unchanged — a colon-free header line at most switches
the current section); and every populated scalar and list element of any parse
result is a trimmed non-empty string different from the sentinel "N/A". -/
theorem claim_C9_parse_total :
    (∀ content : String, ∀ v ∈ (PreviousSerials.parse content).values,
      strTrim v = v ∧ v ≠ "" ∧ v ≠ "N/A") ∧
    (∀ (st : String × PreviousSerials) (line : String), ':' ∉ line.data →
      (parseLine st line).2 = st.2) := by
  constructor
  · exact parse_values_good
  · rintro ⟨sec, ser⟩ line hcolon
    have h2 : splitOnceChar ':' (strTrim line).data = none :=
      splitOnceChar_of_not_mem (fun hm => hcolon (mem_of_mem_trimChars hm))
    simp only [parseLine]
    split
    · rfl
    · simp [h2]

theorem claim_C9_witness :
    (parseLine ("SYSTEM", PreviousSerials.default) "a line without any separator").2 =
      PreviousSerials.default :=
  claim_C9_parse_total.2 ("SYSTEM", PreviousSerials.default)
    "a line without any separator" (by decide)

/-- Snapshot whose system serial contains an embedded newline: it satisfies
the §3 normalization invariant (trimmed, non-empty, non-placeholder,
non-sentinel), all other scalars are the sentinel and all lists are empty. -/
def newlineApp : App :=
  { system_serial_number := "AB\nCD", system_uuid := "N/A", system_sku := "N/A"
    baseboard_serial_number := "N/A", baseboard_asset_tag := "N/A"
    processor_serial_number := "N/A", processor_part_number := "N/A"
    chassis_serial_number := "N/A", chassis_asset_tag := "N/A", chassis_sku := "N/A"
    disks := [], network_interfaces := [], monitors := [], gpus := [] }

/-- Counterexample to claim C1 as stated: the §3 invariant does not exclude an
embedded newline, and for such a scalar the round trip is lossy — the
serializer emits the value across two lines and the parser recovers only the
first fragment "AB" instead of the non-sentinel scalar "AB\nCD". -/
theorem claim_C1_counterexample :
    strTrim newlineApp.system_serial_number = newlineApp.system_serial_number ∧
    newlineApp.system_serial_number ≠ "" ∧
    newlineApp.system_serial_number ≠ "N/A" ∧
    systemIsPlaceholder newlineApp.system_serial_number = false ∧
    (PreviousSerials.parse
        (exportContent newlineApp "2024-01-01 00:00:00")).system_serial = some "AB" ∧
    newlineApp.system_serial_number ≠ "AB" := by decide

theorem dropWhile_head_true {p : Char → Bool} {c : Char} {l : List Char}
    (h : p c = true) : List.dropWhile p (c :: l) = List.dropWhile p l := by
  simp only [List.dropWhile, h]

theorem str_ext {s t : String} (h : s.data = t.data) : s = t := by
  cases s
  cases t
  exact congrArg String.mk h

theorem data_ne_nil {s : String} (h : s ≠ "") : s.data ≠ [] := by
  intro hd
  exact h (str_ext (by simpa using hd))

theorem trimChars_eq_self {l : List Char}
    (h1 : List.dropWhile Char.isWhitespace l = l)
    (h2 : List.dropWhile Char.isWhitespace l.reverse = l.reverse) :
    trimChars l = l := by
  unfold trimChars ltrimChars
  rw [h1]
  exact rtrim_fix_iff.mpr h2

theorem not_nl_append {s t : String} (hs : '\n' ∉ s.data) (ht : '\n' ∉ t.data) :
    '\n' ∉ (s ++ t).data := by
  rw [String.data_append]
  simp only [List.mem_append]
  rintro (h | h)
  · exact hs h
  · exact ht h

theorem isHeaderLine_false_of_data {t : String} {c : Char} {l : List Char}
    (hd : t.data = c :: l) (hc : c ≠ '=') : isHeaderLine t = false := by
  unfold isHeaderLine
  rw [hd]
  have h1 : (('=' : Char) == c) = false := by
    simp only [beq_eq_false_iff_ne, ne_eq]
    exact fun he => hc he.symm
  rw [show ("===".data) = ['=', '=', '='] from rfl]
  simp [List.isPrefixOf, h1]

/-- Facts about a string with no leading and no trailing whitespace, extracted
from `strTrim s = s`. -/
theorem strTrim_fix_facts {s : String} (hs : strTrim s = s) :
    List.dropWhile Char.isWhitespace s.data = s.data ∧
    List.dropWhile Char.isWhitespace s.data.reverse = s.data.reverse := by
  have hfix : trimChars s.data = s.data := congrArg String.data hs
  obtain ⟨hl, hr⟩ := trim_fix_split hfix
  exact ⟨hl, rtrim_fix_iff.mp hr⟩

/-- Core computation for the export round trip: processing a well-formed
`Key: value` line in section `sec` with a trimmed non-empty value either skips
the sentinel or dispatches the value. -/
theorem parseLine_keyval (sec : String) (ser : PreviousSerials) (K s : String)
    (c : Char) (hK : K.data = c :: K.data.tail)
    (hcw : Char.isWhitespace c = false) (hce : c ≠ '=')
    (hKcolon : ':' ∉ K.data) (hKtrim : strTrim K = K)
    (hs : strTrim s = s) (hne : s ≠ "") :
    parseLine (sec, ser) (K ++ ": " ++ s) =
      (sec, if s = "N/A" then ser else parseDispatch sec K s ser) := by
  have hdata : (K ++ ": " ++ s).data = K.data ++ ':' :: ' ' :: s.data := by
    rw [String.data_append, String.data_append]
    simp [List.append_assoc]
  obtain ⟨hsl, hsr⟩ := strTrim_fix_facts hs
  have hsd : s.data ≠ [] := data_ne_nil hne
  -- the full line is already trimmed
  have hltrim : List.dropWhile Char.isWhitespace (K.data ++ ':' :: ' ' :: s.data)
      = K.data ++ ':' :: ' ' :: s.data := by
    rw [hK, List.cons_append]
    exact dropWhile_head_false hcw
  have hrtrim : List.dropWhile Char.isWhitespace
      (K.data ++ ':' :: ' ' :: s.data).reverse
      = (K.data ++ ':' :: ' ' :: s.data).reverse := by
    rcases hrev : s.data.reverse with _ | ⟨e, t⟩
    · exact absurd (by simpa using hrev) hsd
    · have he : Char.isWhitespace e = false := by
        apply head_false_of_dropWhile (l := t)
        rw [← hrev]
        exact hsr
      rw [show (K.data ++ ':' :: ' ' :: s.data).reverse
          = e :: (t ++ [' '] ++ [':'] ++ K.data.reverse) from by
        simp [List.reverse_append, List.reverse_cons, hrev, List.append_assoc]]
      exact dropWhile_head_false he
  have htrimfix : strTrim (K ++ ": " ++ s) = K ++ ": " ++ s := by
    unfold strTrim
    rw [hdata, trimChars_eq_self hltrim hrtrim]
    exact str_ext (by rw [hdata])
  have hheader : isHeaderLine (K ++ ": " ++ s) = false := by
    refine isHeaderLine_false_of_data (c := c) (l := K.data.tail ++ ':' :: ' ' :: s.data)
      ?_ hce
    rw [hdata]
    conv_lhs => rw [hK]
    rw [List.cons_append]
  have hsplit : splitOnceChar ':' (K ++ ": " ++ s).data = some (K.data, ' ' :: s.data) := by
    rw [hdata]
    exact splitOnceChar_append _ hKcolon
  have hkey : strTrim (String.mk K.data) = K := by
    rw [mk_data]
    exact hKtrim
  have hvalue : strTrim (String.mk (' ' :: s.data)) = s := by
    unfold strTrim trimChars ltrimChars
    rw [show (String.mk (' ' :: s.data)).data = ' ' :: s.data from rfl]
    rw [dropWhile_head_true (show Char.isWhitespace ' ' = true from rfl), hsl]
    rw [rtrim_fix_iff.mpr hsr]
  simp only [parseLine, htrimfix, hheader, Bool.false_eq_true, if_false, hsplit,
    hkey, hvalue]
  by_cases hna : s = "N/A"
  · rw [if_pos (Or.inr hna), if_pos hna]
  · have hguard : ¬(s = "" ∨ s = "N/A") := by
      rintro (h | h)
      · exact hne h
      · exact hna h
    rw [if_neg hguard, if_neg hna]

/-- A scalar field satisfying the §3 normalization invariant (trimmed, never
empty; the sentinel "N/A" itself qualifies), strengthened by the amendment of
claim C1: it contains no newline character. -/
@[reducible] def goodScalar (s : String) : Prop :=
  strTrim s = s ∧ s ≠ "" ∧ '\n' ∉ s.data

/-- The recovery the claim describes: a non-sentinel scalar is recovered
exactly, a sentinel scalar is left absent. -/
def recoverScalar (s : String) : Option String :=
  if s = "N/A" then none else some s

/-- One serialized line followed by the rest of the text. -/
def lineCat (l rest : String) : String := l ++ "\n" ++ rest

theorem splitLines_lineCat (l rest : String) (h : '\n' ∉ l.data) :
    splitLines (lineCat l rest) = l :: splitLines rest :=
  splitLines_append l rest h


set_option maxRecDepth 4000 in
set_option maxHeartbeats 1000000 in
/-- Claim C1 (amended): for a snapshot whose four list fields are empty and
whose scalar fields and timestamp satisfy the §3 normalization invariant
(trimmed, non-empty) and — the amendment forced by the counterexample —
contain no newline character, parsing the serialized export text recovers each
of the six scalars exactly when the scalar is not the sentinel "N/A", leaves
the corresponding baseline field absent when it is the sentinel, and populates
no list entries. -/
theorem claim_C1_roundtrip (a : App) (generated : String)
    (hd : a.disks = []) (hn : a.network_interfaces = [])
    (hm : a.monitors = []) (hg : a.gpus = [])
    (hgen : goodScalar generated)
    (h1 : goodScalar a.system_serial_number) (h2 : goodScalar a.system_uuid)
    (h3 : goodScalar a.system_sku) (h4 : goodScalar a.baseboard_serial_number)
    (h5 : goodScalar a.baseboard_asset_tag) (h6 : goodScalar a.processor_serial_number)
    (h7 : goodScalar a.processor_part_number) (h8 : goodScalar a.chassis_serial_number)
    (h9 : goodScalar a.chassis_asset_tag) (h10 : goodScalar a.chassis_sku) :
    (PreviousSerials.parse (exportContent a generated)).system_serial
        = (if a.system_serial_number = "N/A" then none
           else some a.system_serial_number) ∧
    (PreviousSerials.parse (exportContent a generated)).system_uuid
        = (if a.system_uuid = "N/A" then none else some a.system_uuid) ∧
    (PreviousSerials.parse (exportContent a generated)).system_sku
        = (if a.system_sku = "N/A" then none else some a.system_sku) ∧
    (PreviousSerials.parse (exportContent a generated)).baseboard_serial
        = (if a.baseboard_serial_number = "N/A" then none
           else some a.baseboard_serial_number) ∧
    (PreviousSerials.parse (exportContent a generated)).processor_serial
        = (if a.processor_serial_number = "N/A" then none
           else some a.processor_serial_number) ∧
    (PreviousSerials.parse (exportContent a generated)).chassis_serial
        = (if a.chassis_serial_number = "N/A" then none
           else some a.chassis_serial_number) ∧
    (PreviousSerials.parse (exportContent a generated)).disk_serials = [] ∧
    (PreviousSerials.parse (exportContent a generated)).network_macs = [] ∧
    (PreviousSerials.parse (exportContent a generated)).monitor_serials = [] ∧
    (PreviousSerials.parse (exportContent a generated)).gpu_guids = [] := by
  have dJoinNil : String.join [] = "" := rfl
  have dSE : ("=== SERIAL EXPORT ===\n" : String).data
      = "=== SERIAL EXPORT ===".data ++ ['\n'] := rfl
  have dSys : ("=== SYSTEM ===\n" : String).data = "=== SYSTEM ===".data ++ ['\n'] := rfl
  have dBB : ("=== BASEBOARD ===\n" : String).data
      = "=== BASEBOARD ===".data ++ ['\n'] := rfl
  have dProc : ("=== PROCESSOR ===\n" : String).data
      = "=== PROCESSOR ===".data ++ ['\n'] := rfl
  have dCh : ("=== CHASSIS ===\n" : String).data = "=== CHASSIS ===".data ++ ['\n'] := rfl
  have dDisks : ("=== DISKS ===\n" : String).data = "=== DISKS ===".data ++ ['\n'] := rfl
  have dNet : ("=== NETWORK ===\n" : String).data = "=== NETWORK ===".data ++ ['\n'] := rfl
  have dMon : ("=== MONITORS ===\n" : String).data
      = "=== MONITORS ===".data ++ ['\n'] := rfl
  have dGpu : ("=== GPU ===\n" : String).data = "=== GPU ===".data ++ ['\n'] := rfl
  have dNN : ("\n\n" : String).data = ['\n', '\n'] := rfl
  have dN : ("\n" : String).data = ['\n'] := rfl
  have dColon : (": " : String).data = [':', ' '] := rfl
  have dSerNum : ("Serial Number: " : String).data = "Serial Number".data ++ [':', ' '] := rfl
  have dUUID : ("UUID: " : String).data = "UUID".data ++ [':', ' '] := rfl
  have dSKU : ("SKU: " : String).data = "SKU".data ++ [':', ' '] := rfl
  have dGen : ("Generated: " : String).data = "Generated".data ++ [':', ' '] := rfl
  have dAT : ("Asset Tag: " : String).data = "Asset Tag".data ++ [':', ' '] := rfl
  have dPN : ("Part Number: " : String).data = "Part Number".data ++ [':', ' '] := rfl
  have dEmpty : ("" : String).data = ([] : List Char) := rfl
  have hform : exportContent a generated =
      (lineCat "=== SERIAL EXPORT ===" (lineCat ("Generated" ++ ": " ++ generated) (lineCat "" (lineCat "=== SYSTEM ===" (lineCat ("Serial Number" ++ ": " ++ a.system_serial_number) (lineCat ("UUID" ++ ": " ++ a.system_uuid) (lineCat ("SKU" ++ ": " ++ a.system_sku) (lineCat "" (lineCat "=== BASEBOARD ===" (lineCat ("Serial Number" ++ ": " ++ a.baseboard_serial_number) (lineCat ("Asset Tag" ++ ": " ++ a.baseboard_asset_tag) (lineCat "" (lineCat "=== PROCESSOR ===" (lineCat ("Serial Number" ++ ": " ++ a.processor_serial_number) (lineCat ("Part Number" ++ ": " ++ a.processor_part_number) (lineCat "" (lineCat "=== CHASSIS ===" (lineCat ("Serial Number" ++ ": " ++ a.chassis_serial_number) (lineCat ("Asset Tag" ++ ": " ++ a.chassis_asset_tag) (lineCat ("SKU" ++ ": " ++ a.chassis_sku) (lineCat "" (lineCat "=== DISKS ===" (lineCat "" (lineCat "=== NETWORK ===" (lineCat "" (lineCat "=== MONITORS ===" (lineCat "" (lineCat "=== GPU ===" "")))))))))))))))))))))))))))) := by
    apply str_ext
    simp only [exportContent, lineCat, hd, hn, hm, hg, List.enum_nil, List.map_nil,
      dJoinNil, String.data_append, dSE, dSys, dBB, dProc, dCh, dDisks, dNet, dMon,
      dGpu, dNN, dN, dColon, dSerNum, dUUID, dSKU, dGen, dAT, dPN, dEmpty,
      List.append_assoc, List.cons_append, List.nil_append, List.append_nil,
      List.singleton_append]
  have hsplit : splitLines (exportContent a generated) =
      ["=== SERIAL EXPORT ===",
        ("Generated" ++ ": " ++ generated),
        "",
        "=== SYSTEM ===",
        ("Serial Number" ++ ": " ++ a.system_serial_number),
        ("UUID" ++ ": " ++ a.system_uuid),
        ("SKU" ++ ": " ++ a.system_sku),
        "",
        "=== BASEBOARD ===",
        ("Serial Number" ++ ": " ++ a.baseboard_serial_number),
        ("Asset Tag" ++ ": " ++ a.baseboard_asset_tag),
        "",
        "=== PROCESSOR ===",
        ("Serial Number" ++ ": " ++ a.processor_serial_number),
        ("Part Number" ++ ": " ++ a.processor_part_number),
        "",
        "=== CHASSIS ===",
        ("Serial Number" ++ ": " ++ a.chassis_serial_number),
        ("Asset Tag" ++ ": " ++ a.chassis_asset_tag),
        ("SKU" ++ ": " ++ a.chassis_sku),
        "",
        "=== DISKS ===",
        "",
        "=== NETWORK ===",
        "",
        "=== MONITORS ===",
        "",
        "=== GPU ===",
        ""] := by
    rw [hform]
    rw [splitLines_lineCat _ _ (by decide),
      splitLines_lineCat _ _ (not_nl_append (not_nl_append (by decide) (by decide)) hgen.2.2),
      splitLines_lineCat _ _ (by decide),
      splitLines_lineCat _ _ (by decide),
      splitLines_lineCat _ _ (not_nl_append (not_nl_append (by decide) (by decide)) h1.2.2),
      splitLines_lineCat _ _ (not_nl_append (not_nl_append (by decide) (by decide)) h2.2.2),
      splitLines_lineCat _ _ (not_nl_append (not_nl_append (by decide) (by decide)) h3.2.2),
      splitLines_lineCat _ _ (by decide),
      splitLines_lineCat _ _ (by decide),
      splitLines_lineCat _ _ (not_nl_append (not_nl_append (by decide) (by decide)) h4.2.2),
      splitLines_lineCat _ _ (not_nl_append (not_nl_append (by decide) (by decide)) h5.2.2),
      splitLines_lineCat _ _ (by decide),
      splitLines_lineCat _ _ (by decide),
      splitLines_lineCat _ _ (not_nl_append (not_nl_append (by decide) (by decide)) h6.2.2),
      splitLines_lineCat _ _ (not_nl_append (not_nl_append (by decide) (by decide)) h7.2.2),
      splitLines_lineCat _ _ (by decide),
      splitLines_lineCat _ _ (by decide),
      splitLines_lineCat _ _ (not_nl_append (not_nl_append (by decide) (by decide)) h8.2.2),
      splitLines_lineCat _ _ (not_nl_append (not_nl_append (by decide) (by decide)) h9.2.2),
      splitLines_lineCat _ _ (not_nl_append (not_nl_append (by decide) (by decide)) h10.2.2),
      splitLines_lineCat _ _ (by decide),
      splitLines_lineCat _ _ (by decide),
      splitLines_lineCat _ _ (by decide),
      splitLines_lineCat _ _ (by decide),
      splitLines_lineCat _ _ (by decide),
      splitLines_lineCat _ _ (by decide),
      splitLines_lineCat _ _ (by decide),
      splitLines_lineCat _ _ (by decide)]
    rfl
  have hEmptyLn : ∀ (sec : String) (ser : PreviousSerials),
      parseLine (sec, ser) "" = (sec, ser) := fun _ _ => rfl
  have hHdrSE : ∀ (p : String) (ser : PreviousSerials),
      parseLine (p, ser) "=== SERIAL EXPORT ===" = ("SERIAL EXPORT", ser) := fun _ _ => rfl
  have hHdrSys : ∀ (p : String) (ser : PreviousSerials),
      parseLine (p, ser) "=== SYSTEM ===" = ("SYSTEM", ser) := fun _ _ => rfl
  have hHdrBB : ∀ (p : String) (ser : PreviousSerials),
      parseLine (p, ser) "=== BASEBOARD ===" = ("BASEBOARD", ser) := fun _ _ => rfl
  have hHdrProc : ∀ (p : String) (ser : PreviousSerials),
      parseLine (p, ser) "=== PROCESSOR ===" = ("PROCESSOR", ser) := fun _ _ => rfl
  have hHdrCh : ∀ (p : String) (ser : PreviousSerials),
      parseLine (p, ser) "=== CHASSIS ===" = ("CHASSIS", ser) := fun _ _ => rfl
  have hHdrDisks : ∀ (p : String) (ser : PreviousSerials),
      parseLine (p, ser) "=== DISKS ===" = ("DISKS", ser) := fun _ _ => rfl
  have hHdrNet : ∀ (p : String) (ser : PreviousSerials),
      parseLine (p, ser) "=== NETWORK ===" = ("NETWORK", ser) := fun _ _ => rfl
  have hHdrMon : ∀ (p : String) (ser : PreviousSerials),
      parseLine (p, ser) "=== MONITORS ===" = ("MONITORS", ser) := fun _ _ => rfl
  have hHdrGpu : ∀ (p : String) (ser : PreviousSerials),
      parseLine (p, ser) "=== GPU ===" = ("GPU", ser) := fun _ _ => rfl
  have hLnGen : ∀ ser, parseLine ("SERIAL EXPORT", ser)
      ("Generated" ++ ": " ++ generated) = ("SERIAL EXPORT", ser) := by
    intro ser
    refine (parseLine_keyval "SERIAL EXPORT" ser "Generated" generated 'G'
      rfl rfl (by decide) (by decide) (by decide) hgen.1 hgen.2.1).trans ?_
    rw [show parseDispatch "SERIAL EXPORT" "Generated" generated ser = ser from rfl]
    rw [ite_self]
  have hLnAT1 : ∀ ser, parseLine ("BASEBOARD", ser)
      ("Asset Tag" ++ ": " ++ a.baseboard_asset_tag) = ("BASEBOARD", ser) := by
    intro ser
    refine (parseLine_keyval "BASEBOARD" ser "Asset Tag" a.baseboard_asset_tag 'A'
      rfl rfl (by decide) (by decide) (by decide) h5.1 h5.2.1).trans ?_
    rw [show parseDispatch "BASEBOARD" "Asset Tag" a.baseboard_asset_tag ser = ser from rfl]
    rw [ite_self]
  have hLnPN : ∀ ser, parseLine ("PROCESSOR", ser)
      ("Part Number" ++ ": " ++ a.processor_part_number) = ("PROCESSOR", ser) := by
    intro ser
    refine (parseLine_keyval "PROCESSOR" ser "Part Number" a.processor_part_number 'P'
      rfl rfl (by decide) (by decide) (by decide) h7.1 h7.2.1).trans ?_
    rw [show parseDispatch "PROCESSOR" "Part Number" a.processor_part_number ser = ser from rfl]
    rw [ite_self]
  have hLnAT2 : ∀ ser, parseLine ("CHASSIS", ser)
      ("Asset Tag" ++ ": " ++ a.chassis_asset_tag) = ("CHASSIS", ser) := by
    intro ser
    refine (parseLine_keyval "CHASSIS" ser "Asset Tag" a.chassis_asset_tag 'A'
      rfl rfl (by decide) (by decide) (by decide) h9.1 h9.2.1).trans ?_
    rw [show parseDispatch "CHASSIS" "Asset Tag" a.chassis_asset_tag ser = ser from rfl]
    rw [ite_self]
  have hLnSkuCh : ∀ ser, parseLine ("CHASSIS", ser)
      ("SKU" ++ ": " ++ a.chassis_sku) = ("CHASSIS", ser) := by
    intro ser
    refine (parseLine_keyval "CHASSIS" ser "SKU" a.chassis_sku 'S'
      rfl rfl (by decide) (by decide) (by decide) h10.1 h10.2.1).trans ?_
    rw [show parseDispatch "CHASSIS" "SKU" a.chassis_sku ser = ser from rfl]
    rw [ite_self]
  have hLnSer1 : parseLine ("SYSTEM", PreviousSerials.default) ("Serial Number" ++ ": " ++ a.system_serial_number) = ("SYSTEM", { system_serial := (if a.system_serial_number = "N/A" then none else some a.system_serial_number), system_uuid := none, system_sku := none, baseboard_serial := none, processor_serial := none, chassis_serial := none, disk_serials := [], network_macs := [], monitor_serials := [], gpu_guids := [] }) := by
    refine (parseLine_keyval "SYSTEM" (PreviousSerials.default) "Serial Number" a.system_serial_number 'S' rfl rfl (by decide) (by decide) (by decide) h1.1 h1.2.1).trans ?_
    by_cases hc : a.system_serial_number = "N/A"
    · rw [if_pos hc, if_pos hc]
      rfl
    · rw [if_neg hc, if_neg hc]
      rfl
  have hLnUuid : parseLine ("SYSTEM", { system_serial := (if a.system_serial_number = "N/A" then none else some a.system_serial_number), system_uuid := none, system_sku := none, baseboard_serial := none, processor_serial := none, chassis_serial := none, disk_serials := [], network_macs := [], monitor_serials := [], gpu_guids := [] }) ("UUID" ++ ": " ++ a.system_uuid) = ("SYSTEM", { system_serial := (if a.system_serial_number = "N/A" then none else some a.system_serial_number), system_uuid := (if a.system_uuid = "N/A" then none else some a.system_uuid), system_sku := none, baseboard_serial := none, processor_serial := none, chassis_serial := none, disk_serials := [], network_macs := [], monitor_serials := [], gpu_guids := [] }) := by
    refine (parseLine_keyval "SYSTEM" ({ system_serial := (if a.system_serial_number = "N/A" then none else some a.system_serial_number), system_uuid := none, system_sku := none, baseboard_serial := none, processor_serial := none, chassis_serial := none, disk_serials := [], network_macs := [], monitor_serials := [], gpu_guids := [] }) "UUID" a.system_uuid 'U' rfl rfl (by decide) (by decide) (by decide) h2.1 h2.2.1).trans ?_
    by_cases hc : a.system_uuid = "N/A"
    · rw [if_pos hc, if_pos hc]
    · rw [if_neg hc, if_neg hc]
      rfl
  have hLnSku : parseLine ("SYSTEM", { system_serial := (if a.system_serial_number = "N/A" then none else some a.system_serial_number), system_uuid := (if a.system_uuid = "N/A" then none else some a.system_uuid), system_sku := none, baseboard_serial := none, processor_serial := none, chassis_serial := none, disk_serials := [], network_macs := [], monitor_serials := [], gpu_guids := [] }) ("SKU" ++ ": " ++ a.system_sku) = ("SYSTEM", { system_serial := (if a.system_serial_number = "N/A" then none else some a.system_serial_number), system_uuid := (if a.system_uuid = "N/A" then none else some a.system_uuid), system_sku := (if a.system_sku = "N/A" then none else some a.system_sku), baseboard_serial := none, processor_serial := none, chassis_serial := none, disk_serials := [], network_macs := [], monitor_serials := [], gpu_guids := [] }) := by
    refine (parseLine_keyval "SYSTEM" ({ system_serial := (if a.system_serial_number = "N/A" then none else some a.system_serial_number), system_uuid := (if a.system_uuid = "N/A" then none else some a.system_uuid), system_sku := none, baseboard_serial := none, processor_serial := none, chassis_serial := none, disk_serials := [], network_macs := [], monitor_serials := [], gpu_guids := [] }) "SKU" a.system_sku 'S' rfl rfl (by decide) (by decide) (by decide) h3.1 h3.2.1).trans ?_
    by_cases hc : a.system_sku = "N/A"
    · rw [if_pos hc, if_pos hc]
    · rw [if_neg hc, if_neg hc]
      rfl
  have hLnSer2 : parseLine ("BASEBOARD", { system_serial := (if a.system_serial_number = "N/A" then none else some a.system_serial_number), system_uuid := (if a.system_uuid = "N/A" then none else some a.system_uuid), system_sku := (if a.system_sku = "N/A" then none else some a.system_sku), baseboard_serial := none, processor_serial := none, chassis_serial := none, disk_serials := [], network_macs := [], monitor_serials := [], gpu_guids := [] }) ("Serial Number" ++ ": " ++ a.baseboard_serial_number) = ("BASEBOARD", { system_serial := (if a.system_serial_number = "N/A" then none else some a.system_serial_number), system_uuid := (if a.system_uuid = "N/A" then none else some a.system_uuid), system_sku := (if a.system_sku = "N/A" then none else some a.system_sku), baseboard_serial := (if a.baseboard_serial_number = "N/A" then none else some a.baseboard_serial_number), processor_serial := none, chassis_serial := none, disk_serials := [], network_macs := [], monitor_serials := [], gpu_guids := [] }) := by
    refine (parseLine_keyval "BASEBOARD" ({ system_serial := (if a.system_serial_number = "N/A" then none else some a.system_serial_number), system_uuid := (if a.system_uuid = "N/A" then none else some a.system_uuid), system_sku := (if a.system_sku = "N/A" then none else some a.system_sku), baseboard_serial := none, processor_serial := none, chassis_serial := none, disk_serials := [], network_macs := [], monitor_serials := [], gpu_guids := [] }) "Serial Number" a.baseboard_serial_number 'S' rfl rfl (by decide) (by decide) (by decide) h4.1 h4.2.1).trans ?_
    by_cases hc : a.baseboard_serial_number = "N/A"
    · rw [if_pos hc, if_pos hc]
    · rw [if_neg hc, if_neg hc]
      rfl
  have hLnSer3 : parseLine ("PROCESSOR", { system_serial := (if a.system_serial_number = "N/A" then none else some a.system_serial_number), system_uuid := (if a.system_uuid = "N/A" then none else some a.system_uuid), system_sku := (if a.system_sku = "N/A" then none else some a.system_sku), baseboard_serial := (if a.baseboard_serial_number = "N/A" then none else some a.baseboard_serial_number), processor_serial := none, chassis_serial := none, disk_serials := [], network_macs := [], monitor_serials := [], gpu_guids := [] }) ("Serial Number" ++ ": " ++ a.processor_serial_number) = ("PROCESSOR", { system_serial := (if a.system_serial_number = "N/A" then none else some a.system_serial_number), system_uuid := (if a.system_uuid = "N/A" then none else some a.system_uuid), system_sku := (if a.system_sku = "N/A" then none else some a.system_sku), baseboard_serial := (if a.baseboard_serial_number = "N/A" then none else some a.baseboard_serial_number), processor_serial := (if a.processor_serial_number = "N/A" then none else some a.processor_serial_number), chassis_serial := none, disk_serials := [], network_macs := [], monitor_serials := [], gpu_guids := [] }) := by
    refine (parseLine_keyval "PROCESSOR" ({ system_serial := (if a.system_serial_number = "N/A" then none else some a.system_serial_number), system_uuid := (if a.system_uuid = "N/A" then none else some a.system_uuid), system_sku := (if a.system_sku = "N/A" then none else some a.system_sku), baseboard_serial := (if a.baseboard_serial_number = "N/A" then none else some a.baseboard_serial_number), processor_serial := none, chassis_serial := none, disk_serials := [], network_macs := [], monitor_serials := [], gpu_guids := [] }) "Serial Number" a.processor_serial_number 'S' rfl rfl (by decide) (by decide) (by decide) h6.1 h6.2.1).trans ?_
    by_cases hc : a.processor_serial_number = "N/A"
    · rw [if_pos hc, if_pos hc]
    · rw [if_neg hc, if_neg hc]
      rfl
  have hLnSer4 : parseLine ("CHASSIS", { system_serial := (if a.system_serial_number = "N/A" then none else some a.system_serial_number), system_uuid := (if a.system_uuid = "N/A" then none else some a.system_uuid), system_sku := (if a.system_sku = "N/A" then none else some a.system_sku), baseboard_serial := (if a.baseboard_serial_number = "N/A" then none else some a.baseboard_serial_number), processor_serial := (if a.processor_serial_number = "N/A" then none else some a.processor_serial_number), chassis_serial := none, disk_serials := [], network_macs := [], monitor_serials := [], gpu_guids := [] }) ("Serial Number" ++ ": " ++ a.chassis_serial_number) = ("CHASSIS", { system_serial := (if a.system_serial_number = "N/A" then none else some a.system_serial_number), system_uuid := (if a.system_uuid = "N/A" then none else some a.system_uuid), system_sku := (if a.system_sku = "N/A" then none else some a.system_sku), baseboard_serial := (if a.baseboard_serial_number = "N/A" then none else some a.baseboard_serial_number), processor_serial := (if a.processor_serial_number = "N/A" then none else some a.processor_serial_number), chassis_serial := (if a.chassis_serial_number = "N/A" then none else some a.chassis_serial_number), disk_serials := [], network_macs := [], monitor_serials := [], gpu_guids := [] }) := by
    refine (parseLine_keyval "CHASSIS" ({ system_serial := (if a.system_serial_number = "N/A" then none else some a.system_serial_number), system_uuid := (if a.system_uuid = "N/A" then none else some a.system_uuid), system_sku := (if a.system_sku = "N/A" then none else some a.system_sku), baseboard_serial := (if a.baseboard_serial_number = "N/A" then none else some a.baseboard_serial_number), processor_serial := (if a.processor_serial_number = "N/A" then none else some a.processor_serial_number), chassis_serial := none, disk_serials := [], network_macs := [], monitor_serials := [], gpu_guids := [] }) "Serial Number" a.chassis_serial_number 'S' rfl rfl (by decide) (by decide) (by decide) h8.1 h8.2.1).trans ?_
    by_cases hc : a.chassis_serial_number = "N/A"
    · rw [if_pos hc, if_pos hc]
    · rw [if_neg hc, if_neg hc]
      rfl
  unfold PreviousSerials.parse
  rw [hsplit]
  simp only [List.foldl_cons, List.foldl_nil]
  rw [hHdrSE "" PreviousSerials.default]
  rw [hLnGen PreviousSerials.default]
  rw [hEmptyLn "SERIAL EXPORT" PreviousSerials.default]
  rw [hHdrSys "SERIAL EXPORT" PreviousSerials.default]
  rw [hLnSer1]
  rw [hLnUuid]
  rw [hLnSku]
  rw [hEmptyLn "SYSTEM" ({ system_serial := (if a.system_serial_number = "N/A" then none else some a.system_serial_number), system_uuid := (if a.system_uuid = "N/A" then none else some a.system_uuid), system_sku := (if a.system_sku = "N/A" then none else some a.system_sku), baseboard_serial := none, processor_serial := none, chassis_serial := none, disk_serials := [], network_macs := [], monitor_serials := [], gpu_guids := [] })]
  rw [hHdrBB "SYSTEM" ({ system_serial := (if a.system_serial_number = "N/A" then none else some a.system_serial_number), system_uuid := (if a.system_uuid = "N/A" then none else some a.system_uuid), system_sku := (if a.system_sku = "N/A" then none else some a.system_sku), baseboard_serial := none, processor_serial := none, chassis_serial := none, disk_serials := [], network_macs := [], monitor_serials := [], gpu_guids := [] })]
  rw [hLnSer2]
  rw [hLnAT1 ({ system_serial := (if a.system_serial_number = "N/A" then none else some a.system_serial_number), system_uuid := (if a.system_uuid = "N/A" then none else some a.system_uuid), system_sku := (if a.system_sku = "N/A" then none else some a.system_sku), baseboard_serial := (if a.baseboard_serial_number = "N/A" then none else some a.baseboard_serial_number), processor_serial := none, chassis_serial := none, disk_serials := [], network_macs := [], monitor_serials := [], gpu_guids := [] })]
  rw [hEmptyLn "BASEBOARD" ({ system_serial := (if a.system_serial_number = "N/A" then none else some a.system_serial_number), system_uuid := (if a.system_uuid = "N/A" then none else some a.system_uuid), system_sku := (if a.system_sku = "N/A" then none else some a.system_sku), baseboard_serial := (if a.baseboard_serial_number = "N/A" then none else some a.baseboard_serial_number), processor_serial := none, chassis_serial := none, disk_serials := [], network_macs := [], monitor_serials := [], gpu_guids := [] })]
  rw [hHdrProc "BASEBOARD" ({ system_serial := (if a.system_serial_number = "N/A" then none else some a.system_serial_number), system_uuid := (if a.system_uuid = "N/A" then none else some a.system_uuid), system_sku := (if a.system_sku = "N/A" then none else some a.system_sku), baseboard_serial := (if a.baseboard_serial_number = "N/A" then none else some a.baseboard_serial_number), processor_serial := none, chassis_serial := none, disk_serials := [], network_macs := [], monitor_serials := [], gpu_guids := [] })]
  rw [hLnSer3]
  rw [hLnPN ({ system_serial := (if a.system_serial_number = "N/A" then none else some a.system_serial_number), system_uuid := (if a.system_uuid = "N/A" then none else some a.system_uuid), system_sku := (if a.system_sku = "N/A" then none else some a.system_sku), baseboard_serial := (if a.baseboard_serial_number = "N/A" then none else some a.baseboard_serial_number), processor_serial := (if a.processor_serial_number = "N/A" then none else some a.processor_serial_number), chassis_serial := none, disk_serials := [], network_macs := [], monitor_serials := [], gpu_guids := [] })]
  rw [hEmptyLn "PROCESSOR" ({ system_serial := (if a.system_serial_number = "N/A" then none else some a.system_serial_number), system_uuid := (if a.system_uuid = "N/A" then none else some a.system_uuid), system_sku := (if a.system_sku = "N/A" then none else some a.system_sku), baseboard_serial := (if a.baseboard_serial_number = "N/A" then none else some a.baseboard_serial_number), processor_serial := (if a.processor_serial_number = "N/A" then none else some a.processor_serial_number), chassis_serial := none, disk_serials := [], network_macs := [], monitor_serials := [], gpu_guids := [] })]
  rw [hHdrCh "PROCESSOR" ({ system_serial := (if a.system_serial_number = "N/A" then none else some a.system_serial_number), system_uuid := (if a.system_uuid = "N/A" then none else some a.system_uuid), system_sku := (if a.system_sku = "N/A" then none else some a.system_sku), baseboard_serial := (if a.baseboard_serial_number = "N/A" then none else some a.baseboard_serial_number), processor_serial := (if a.processor_serial_number = "N/A" then none else some a.processor_serial_number), chassis_serial := none, disk_serials := [], network_macs := [], monitor_serials := [], gpu_guids := [] })]
  rw [hLnSer4]
  rw [hLnAT2 ({ system_serial := (if a.system_serial_number = "N/A" then none else some a.system_serial_number), system_uuid := (if a.system_uuid = "N/A" then none else some a.system_uuid), system_sku := (if a.system_sku = "N/A" then none else some a.system_sku), baseboard_serial := (if a.baseboard_serial_number = "N/A" then none else some a.baseboard_serial_number), processor_serial := (if a.processor_serial_number = "N/A" then none else some a.processor_serial_number), chassis_serial := (if a.chassis_serial_number = "N/A" then none else some a.chassis_serial_number), disk_serials := [], network_macs := [], monitor_serials := [], gpu_guids := [] })]
  rw [hLnSkuCh ({ system_serial := (if a.system_serial_number = "N/A" then none else some a.system_serial_number), system_uuid := (if a.system_uuid = "N/A" then none else some a.system_uuid), system_sku := (if a.system_sku = "N/A" then none else some a.system_sku), baseboard_serial := (if a.baseboard_serial_number = "N/A" then none else some a.baseboard_serial_number), processor_serial := (if a.processor_serial_number = "N/A" then none else some a.processor_serial_number), chassis_serial := (if a.chassis_serial_number = "N/A" then none else some a.chassis_serial_number), disk_serials := [], network_macs := [], monitor_serials := [], gpu_guids := [] })]
  rw [hEmptyLn "CHASSIS" ({ system_serial := (if a.system_serial_number = "N/A" then none else some a.system_serial_number), system_uuid := (if a.system_uuid = "N/A" then none else some a.system_uuid), system_sku := (if a.system_sku = "N/A" then none else some a.system_sku), baseboard_serial := (if a.baseboard_serial_number = "N/A" then none else some a.baseboard_serial_number), processor_serial := (if a.processor_serial_number = "N/A" then none else some a.processor_serial_number), chassis_serial := (if a.chassis_serial_number = "N/A" then none else some a.chassis_serial_number), disk_serials := [], network_macs := [], monitor_serials := [], gpu_guids := [] })]
  rw [hHdrDisks "CHASSIS" ({ system_serial := (if a.system_serial_number = "N/A" then none else some a.system_serial_number), system_uuid := (if a.system_uuid = "N/A" then none else some a.system_uuid), system_sku := (if a.system_sku = "N/A" then none else some a.system_sku), baseboard_serial := (if a.baseboard_serial_number = "N/A" then none else some a.baseboard_serial_number), processor_serial := (if a.processor_serial_number = "N/A" then none else some a.processor_serial_number), chassis_serial := (if a.chassis_serial_number = "N/A" then none else some a.chassis_serial_number), disk_serials := [], network_macs := [], monitor_serials := [], gpu_guids := [] })]
  rw [hEmptyLn "DISKS" ({ system_serial := (if a.system_serial_number = "N/A" then none else some a.system_serial_number), system_uuid := (if a.system_uuid = "N/A" then none else some a.system_uuid), system_sku := (if a.system_sku = "N/A" then none else some a.system_sku), baseboard_serial := (if a.baseboard_serial_number = "N/A" then none else some a.baseboard_serial_number), processor_serial := (if a.processor_serial_number = "N/A" then none else some a.processor_serial_number), chassis_serial := (if a.chassis_serial_number = "N/A" then none else some a.chassis_serial_number), disk_serials := [], network_macs := [], monitor_serials := [], gpu_guids := [] })]
  rw [hHdrNet "DISKS" ({ system_serial := (if a.system_serial_number = "N/A" then none else some a.system_serial_number), system_uuid := (if a.system_uuid = "N/A" then none else some a.system_uuid), system_sku := (if a.system_sku = "N/A" then none else some a.system_sku), baseboard_serial := (if a.baseboard_serial_number = "N/A" then none else some a.baseboard_serial_number), processor_serial := (if a.processor_serial_number = "N/A" then none else some a.processor_serial_number), chassis_serial := (if a.chassis_serial_number = "N/A" then none else some a.chassis_serial_number), disk_serials := [], network_macs := [], monitor_serials := [], gpu_guids := [] })]
  rw [hEmptyLn "NETWORK" ({ system_serial := (if a.system_serial_number = "N/A" then none else some a.system_serial_number), system_uuid := (if a.system_uuid = "N/A" then none else some a.system_uuid), system_sku := (if a.system_sku = "N/A" then none else some a.system_sku), baseboard_serial := (if a.baseboard_serial_number = "N/A" then none else some a.baseboard_serial_number), processor_serial := (if a.processor_serial_number = "N/A" then none else some a.processor_serial_number), chassis_serial := (if a.chassis_serial_number = "N/A" then none else some a.chassis_serial_number), disk_serials := [], network_macs := [], monitor_serials := [], gpu_guids := [] })]
  rw [hHdrMon "NETWORK" ({ system_serial := (if a.system_serial_number = "N/A" then none else some a.system_serial_number), system_uuid := (if a.system_uuid = "N/A" then none else some a.system_uuid), system_sku := (if a.system_sku = "N/A" then none else some a.system_sku), baseboard_serial := (if a.baseboard_serial_number = "N/A" then none else some a.baseboard_serial_number), processor_serial := (if a.processor_serial_number = "N/A" then none else some a.processor_serial_number), chassis_serial := (if a.chassis_serial_number = "N/A" then none else some a.chassis_serial_number), disk_serials := [], network_macs := [], monitor_serials := [], gpu_guids := [] })]
  rw [hEmptyLn "MONITORS" ({ system_serial := (if a.system_serial_number = "N/A" then none else some a.system_serial_number), system_uuid := (if a.system_uuid = "N/A" then none else some a.system_uuid), system_sku := (if a.system_sku = "N/A" then none else some a.system_sku), baseboard_serial := (if a.baseboard_serial_number = "N/A" then none else some a.baseboard_serial_number), processor_serial := (if a.processor_serial_number = "N/A" then none else some a.processor_serial_number), chassis_serial := (if a.chassis_serial_number = "N/A" then none else some a.chassis_serial_number), disk_serials := [], network_macs := [], monitor_serials := [], gpu_guids := [] })]
  rw [hHdrGpu "MONITORS" ({ system_serial := (if a.system_serial_number = "N/A" then none else some a.system_serial_number), system_uuid := (if a.system_uuid = "N/A" then none else some a.system_uuid), system_sku := (if a.system_sku = "N/A" then none else some a.system_sku), baseboard_serial := (if a.baseboard_serial_number = "N/A" then none else some a.baseboard_serial_number), processor_serial := (if a.processor_serial_number = "N/A" then none else some a.processor_serial_number), chassis_serial := (if a.chassis_serial_number = "N/A" then none else some a.chassis_serial_number), disk_serials := [], network_macs := [], monitor_serials := [], gpu_guids := [] })]
  rw [hEmptyLn "GPU" ({ system_serial := (if a.system_serial_number = "N/A" then none else some a.system_serial_number), system_uuid := (if a.system_uuid = "N/A" then none else some a.system_uuid), system_sku := (if a.system_sku = "N/A" then none else some a.system_sku), baseboard_serial := (if a.baseboard_serial_number = "N/A" then none else some a.baseboard_serial_number), processor_serial := (if a.processor_serial_number = "N/A" then none else some a.processor_serial_number), chassis_serial := (if a.chassis_serial_number = "N/A" then none else some a.chassis_serial_number), disk_serials := [], network_macs := [], monitor_serials := [], gpu_guids := [] })]
  refine ⟨?_, ?_, ?_, ?_, ?_, ?_, ?_, ?_, ?_, ?_⟩ <;> rfl

/-- Concrete snapshot for the claim C1 witness: one real serial, one real SKU,
every other scalar the sentinel, all lists empty. -/
def roundtripApp : App :=
  { system_serial_number := "ABC123", system_uuid := "N/A", system_sku := "SKU-77"
    baseboard_serial_number := "N/A", baseboard_asset_tag := "N/A"
    processor_serial_number := "N/A", processor_part_number := "N/A"
    chassis_serial_number := "N/A", chassis_asset_tag := "N/A", chassis_sku := "N/A"
    disks := [], network_interfaces := [], monitors := [], gpus := [] }

theorem claim_C1_witness :
    (PreviousSerials.parse (exportContent roundtripApp "2024-01-01 00:00:00")).system_serial
        = (if roundtripApp.system_serial_number = "N/A" then none
           else some roundtripApp.system_serial_number) ∧
    (PreviousSerials.parse (exportContent roundtripApp "2024-01-01 00:00:00")).system_uuid
        = (if roundtripApp.system_uuid = "N/A" then none
           else some roundtripApp.system_uuid) ∧
    (PreviousSerials.parse (exportContent roundtripApp "2024-01-01 00:00:00")).system_sku
        = (if roundtripApp.system_sku = "N/A" then none
           else some roundtripApp.system_sku) ∧
    (PreviousSerials.parse (exportContent roundtripApp "2024-01-01 00:00:00")).baseboard_serial
        = (if roundtripApp.baseboard_serial_number = "N/A" then none
           else some roundtripApp.baseboard_serial_number) ∧
    (PreviousSerials.parse (exportContent roundtripApp "2024-01-01 00:00:00")).processor_serial
        = (if roundtripApp.processor_serial_number = "N/A" then none
           else some roundtripApp.processor_serial_number) ∧
    (PreviousSerials.parse (exportContent roundtripApp "2024-01-01 00:00:00")).chassis_serial
        = (if roundtripApp.chassis_serial_number = "N/A" then none
           else some roundtripApp.chassis_serial_number) ∧
    (PreviousSerials.parse (exportContent roundtripApp "2024-01-01 00:00:00")).disk_serials = [] ∧
    (PreviousSerials.parse (exportContent roundtripApp "2024-01-01 00:00:00")).network_macs = [] ∧
    (PreviousSerials.parse (exportContent roundtripApp "2024-01-01 00:00:00")).monitor_serials = [] ∧
    (PreviousSerials.parse (exportContent roundtripApp "2024-01-01 00:00:00")).gpu_guids = [] :=
  claim_C1_roundtrip roundtripApp "2024-01-01 00:00:00" rfl rfl rfl rfl
    (by decide) (by decide) (by decide) (by decide) (by decide) (by decide)
    (by decide) (by decide) (by decide) (by decide) (by decide)
